import Mathlib

/-!
# Verification of the DAISY Online (dodp) client

A shallow embedding of the repository's SOAP-style transport layer and of its
per-operation message shapes, with theorems settling the specification's
claims about it.

The repository contains three variants of the transport:
* `part_000` (package `dodp`, streaming decoder, gzip support, error wrapping)
  — modelled with the suffix `_dodp`;
* `client.go` (package `dodp`, raw-bytes body capture, gzip support)
  — modelled with the suffix `_client`;
* `part_001` (package `daisyonline`, no gzip, status-text errors)
  — modelled with the suffix `_daisy`.

XML is modelled at the parsed-tree level: element names are the
namespace-resolved local names (all namespaces in the repository are fixed
constants), attributes are name/value pairs, and character data is carried by
text nodes.  `encoding/xml`'s reflection-driven marshalling of the concrete
struct shapes is translated field by field; `strconv`'s decimal and boolean
conversions are modelled by executable Lean counterparts below.
-/

namespace Dodp

/-- A parsed XML node: an element with attributes and children, or character
data.  Sibling streams (e.g. the children of the SOAP Body) are `List XmlNode`. -/
inductive XmlNode where
  | elem (name : String) (attrs : List (String × String)) (children : List XmlNode)
  | text (s : String)

/-- Is this node a start-of-element token (as opposed to character data)? -/
def XmlNode.isElem : XmlNode → Bool
  | .elem _ _ _ => true
  | .text _ => false

/-- Does the node match `xml.StartElement` with the given (local) name? -/
def isNamed (name : String) : XmlNode → Bool
  | .elem n _ _ => n == name
  | .text _ => false

/-- All child elements with the given name, in document order (models how
`encoding/xml` matches child elements against a struct field's tag). -/
def elemsNamed (name : String) (children : List XmlNode) : List XmlNode :=
  children.filter (isNamed name)

/-- The last child element with the given name, if any.  `encoding/xml` sets a
scalar struct field once per matching child, so the last occurrence wins. -/
def lastElem (name : String) (children : List XmlNode) : Option XmlNode :=
  (elemsNamed name children).getLast?

/-- The character data of a node (concatenated text children of an element);
models the chardata `encoding/xml` feeds to a string/bool/int field. -/
def textContent : XmlNode → String
  | .elem _ _ cs => String.join (cs.filterMap fun c => match c with
      | .text s => some s
      | .elem _ _ _ => none)
  | .text s => s

/-- Decode a string-typed child element field: last matching child's text,
or the current (zero) value when the child is absent. -/
def childStr (name : String) (cur : String) (children : List XmlNode) : String :=
  match lastElem name children with
  | some e => textContent e
  | none => cur

/-- Decode a `[]string` field: the text of every matching child, appended to
the current slice (a fresh destination starts from `[]`). -/
def childStrs (name : String) (cur : List String) (children : List XmlNode) :
    List String :=
  cur ++ (elemsNamed name children).map textContent

/-- Decode a string attribute: last matching attribute's value, or the current
(zero) value when absent. -/
def attrStr (name : String) (cur : String) (attrs : List (String × String)) :
    String :=
  match (attrs.filter (fun p => p.1 == name)).getLast? with
  | some p => p.2
  | none => cur

/-! ## The `strconv` layer

Models of Go's `strconv.ParseBool` / boolean formatting and of decimal
integer printing/parsing (`strconv.AppendInt` / `strconv.ParseInt`), which
`encoding/xml` uses for `bool` and integer struct fields. -/

/-- `encoding/xml` formats a `bool` field as `true` / `false`. -/
def boolStr (b : Bool) : String := if b then "true" else "false"

/-- Models `strconv.ParseBool`: the exact set of accepted spellings. -/
def parseBool (s : String) : Option Bool :=
  if s = "1" ∨ s = "t" ∨ s = "T" ∨ s = "true" ∨ s = "TRUE" ∨ s = "True" then
    some true
  else if s = "0" ∨ s = "f" ∨ s = "F" ∨ s = "false" ∨ s = "FALSE" ∨ s = "False" then
    some false
  else none

theorem parseBool_boolStr (b : Bool) : parseBool (boolStr b) = some b := by
  cases b <;> decide

/-- The ASCII character of a decimal digit. -/
def digitChar (d : Nat) : Char := Char.ofNat (48 + d)

/-- The decimal digit denoted by an ASCII character, if any. -/
def charDigit (c : Char) : Option Nat :=
  if 48 ≤ c.toNat ∧ c.toNat ≤ 57 then some (c.toNat - 48) else none

theorem charDigit_digitChar {d : Nat} (h : d < 10) :
    charDigit (digitChar d) = some d := by
  interval_cases d <;> decide

/-- Decimal printing of a natural number, most significant digit first
(models the magnitude part of `strconv.AppendInt`). -/
def natPrint (n : Nat) : String :=
  if n = 0 then "0" else ⟨(Nat.digits 10 n).reverse.map digitChar⟩

/-- Apply a fallible function to every list element, failing if any
application fails (the shape of a parse over every character). -/
def mapOpt {α β : Type} (f : α → Option β) : List α → Option (List β)
  | [] => some []
  | a :: tl =>
    match f a, mapOpt f tl with
    | some b, some bs => some (b :: bs)
    | _, _ => none

theorem mapOpt_map_section {α β : Type} (f : β → Option α) (g : α → β) :
    ∀ l : List α, (∀ a ∈ l, f (g a) = some a) → mapOpt f (l.map g) = some l := by
  intro l
  induction l with
  | nil => intro _; rfl
  | cons a tl ih =>
      intro h
      have ha := h a (List.mem_cons_self a tl)
      have htl := ih (fun x hx => h x (List.mem_cons_of_mem a hx))
      simp [mapOpt, ha, htl]

/-- Decimal parsing of a digit string (models the magnitude part of
`strconv.ParseInt`): every character must be a digit and the string nonempty. -/
def natParse (cs : List Char) : Option Nat :=
  match mapOpt charDigit cs with
  | some ds => if ds = [] then none else some (Nat.ofDigits 10 ds.reverse)
  | none => none

theorem natParse_natPrint (n : Nat) : natParse (natPrint n).data = some n := by
  by_cases h0 : n = 0
  · subst h0; decide
  · have hne : Nat.digits 10 n ≠ [] := Nat.digits_ne_nil_iff_ne_zero.mpr h0
    have hlt : ∀ d ∈ Nat.digits 10 n, d < 10 :=
      fun d hd => Nat.digits_lt_base (by norm_num) hd
    have hmap : mapOpt charDigit ((Nat.digits 10 n).reverse.map digitChar) =
        some (Nat.digits 10 n).reverse :=
      mapOpt_map_section charDigit digitChar (Nat.digits 10 n).reverse
        (fun d hd => charDigit_digitChar (hlt d (List.mem_reverse.mp hd)))
    simp only [natPrint, h0, if_false]
    show natParse ((Nat.digits 10 n).reverse.map digitChar) = some n
    simp only [natParse, hmap]
    rw [if_neg (by simpa using hne)]
    rw [List.reverse_reverse]
    exact congrArg some (Nat.ofDigits_digits 10 n)

/-- Decimal printing of an integer (models `strconv.AppendInt` as used by
`encoding/xml` for `int`/`int32`/`int64` struct fields): a minus sign for
negative values followed by the decimal magnitude. -/
def intPrint (i : Int) : String :=
  if i < 0 then ⟨'-' :: (natPrint i.natAbs).data⟩ else natPrint i.natAbs

/-- Decimal parsing of an integer (models `strconv.ParseInt`). -/
def intParse (s : String) : Option Int :=
  match s.data with
  | [] => none
  | c :: rest =>
      if c = '-' then (natParse rest).map (fun n => -(n : Int))
      else (natParse (c :: rest)).map (fun n => (n : Int))

theorem natPrint_data_ne_nil (n : Nat) : (natPrint n).data ≠ [] := by
  by_cases h0 : n = 0
  · subst h0; decide
  · have hne : Nat.digits 10 n ≠ [] := Nat.digits_ne_nil_iff_ne_zero.mpr h0
    simp [natPrint, h0, hne]

theorem natPrint_head_not_minus (n : Nat) :
    ∀ c ∈ (natPrint n).data, c ≠ '-' := by
  by_cases h0 : n = 0
  · subst h0; decide
  · have hlt : ∀ d ∈ Nat.digits 10 n, d < 10 :=
      fun d hd => Nat.digits_lt_base (by norm_num) hd
    intro c hc hminus
    simp only [natPrint, h0, if_false] at hc
    have hc' : c ∈ (Nat.digits 10 n).reverse.map digitChar := hc
    obtain ⟨d, hd, rfl⟩ := List.mem_map.mp hc'
    have hd10 : d < 10 := hlt d (List.mem_reverse.mp hd)
    have := charDigit_digitChar hd10
    rw [hminus] at this
    simp [charDigit] at this

theorem intParse_intPrint (i : Int) : intParse (intPrint i) = some i := by
  by_cases hneg : i < 0
  · simp only [intPrint, if_pos hneg]
    show intParse ⟨'-' :: (natPrint i.natAbs).data⟩ = some i
    simp only [intParse, if_pos rfl, natParse_natPrint i.natAbs, Option.map_some]
    have h : -(↑(i.natAbs) : Int) = i := by omega
    show some (-(↑(i.natAbs) : Int)) = some i
    rw [h]
  · simp only [intPrint, if_neg hneg]
    obtain ⟨c, rest, hdata⟩ :
        ∃ c rest, (natPrint i.natAbs).data = c :: rest := by
      cases h : (natPrint i.natAbs).data with
      | nil => exact absurd h (natPrint_data_ne_nil i.natAbs)
      | cons c rest => exact ⟨c, rest, rfl⟩
    have hc : c ≠ '-' :=
      natPrint_head_not_minus i.natAbs c (by rw [hdata]; exact List.mem_cons_self c rest)
    have hparse : natParse (c :: rest) = some i.natAbs := by
      rw [← hdata]; exact natParse_natPrint i.natAbs
    simp only [intParse, hdata, if_neg hc, hparse, Option.map_some]
    have h : (↑(i.natAbs) : Int) = i := by omega
    show some ((↑(i.natAbs) : Int)) = some i
    rw [h]

/-! ## Field-decoding helpers using the `strconv` layer -/

/-- Decode a `bool` child-element field (absent child keeps the current value;
unparsable text is a decode error, as in `encoding/xml`). -/
def childBool (name : String) (cur : Bool) (children : List XmlNode) :
    Except String Bool :=
  match lastElem name children with
  | some e =>
    match parseBool (textContent e) with
    | some b => .ok b
    | none => .error (name ++ ": invalid boolean")
  | none => .ok cur

/-- Decode an integer child-element field. -/
def childInt (name : String) (cur : Int) (children : List XmlNode) :
    Except String Int :=
  match lastElem name children with
  | some e =>
    match intParse (textContent e) with
    | some i => .ok i
    | none => .error (name ++ ": invalid integer")
  | none => .ok cur

/-- Decode an integer attribute. -/
def attrInt (name : String) (cur : Int) (attrs : List (String × String)) :
    Except String Int :=
  match (attrs.filter (fun p => p.1 == name)).getLast? with
  | some p =>
    match intParse p.2 with
    | some i => .ok i
    | none => .error (name ++ ": invalid integer")
  | none => .ok cur

/-- Decode a nested-struct child-element field: decode the last matching child
into the current field value, or keep the current value when absent. -/
def childStruct {β : Type} (dec : β → XmlNode → Except String β) (name : String)
    (cur : β) (children : List XmlNode) : Except String β :=
  match lastElem name children with
  | some e => dec cur e
  | none => .ok cur

/-- Decode a pointer-to-struct field (`Option` in the model): a matching child
decodes into a freshly allocated zero value; an absent child keeps the current
pointer. -/
def childOpt {β : Type} (dec : β → XmlNode → Except String β) (z : β)
    (name : String) (cur : Option β) (children : List XmlNode) :
    Except String (Option β) :=
  match lastElem name children with
  | some e => (dec (cur.getD z) e).map some
  | none => .ok cur

/-- Decode each element in order, propagating the first error. -/
def mapExcept {β : Type} (f : XmlNode → Except String β) :
    List XmlNode → Except String (List β)
  | [] => .ok []
  | e :: tl => do
      let b ← f e
      let bs ← mapExcept f tl
      .ok (b :: bs)

/-- Decode a slice-of-structs field: every matching child is decoded from a
fresh zero value and appended to the current slice. -/
def childList {β : Type} (dec : β → XmlNode → Except String β) (z : β)
    (name : String) (cur : List β) (children : List XmlNode) :
    Except String (List β) :=
  (mapExcept (dec z) (elemsNamed name children)).map (cur ++ ·)

/-- Decode a `bool` attribute (via `strconv.ParseBool`, as `encoding/xml`
does for boolean attribute fields). -/
def attrBool (name : String) (cur : Bool) (attrs : List (String × String)) :
    Except String Bool :=
  match (attrs.filter (fun p => p.1 == name)).getLast? with
  | some p =>
    match parseBool p.2 with
    | some b => .ok b
    | none => .error (name ++ ": invalid boolean")
  | none => .ok cur

/-! ## Field encoders

`encoding/xml` marshals struct fields in declaration order: a scalar child
field becomes one element whose character data is the printed value, a slice
field becomes one element per item, an attribute field becomes one
attribute, `,omitempty` suppresses empty values, and a nil pointer field is
simply skipped. -/

/-- Marshal a string child-element field. -/
def encStr (name s : String) : XmlNode := .elem name [] [.text s]

/-- Marshal a `bool` child-element field. -/
def encBool (name : String) (b : Bool) : XmlNode := .elem name [] [.text (boolStr b)]

/-- Marshal an integer child-element field. -/
def encInt (name : String) (i : Int) : XmlNode := .elem name [] [.text (intPrint i)]

/-- Marshal a string child-element field tagged `,omitempty`. -/
def encStrOpt (name s : String) : List XmlNode :=
  if s = "" then [] else [encStr name s]

/-- Marshal a string attribute tagged `,omitempty`. -/
def attrOpt (name v : String) : List (String × String) :=
  if v = "" then [] else [(name, v)]

/-- Marshal a pointer-to-struct field: nil encodes nothing. -/
def encOpt {β : Type} (enc : β → XmlNode) : Option β → List XmlNode
  | some b => [enc b]
  | none => []

/-! ## Generic round-trip lemmas for the field combinators -/

@[simp] theorem join_singleton (s : String) : String.join [s] = s := rfl

@[simp] theorem isNamed_elem (m n : String) (a : List (String × String))
    (c : List XmlNode) : isNamed m (.elem n a c) = (n == m) := rfl

@[simp] theorem isNamed_text (m s : String) : isNamed m (.text s) = false := rfl

@[simp] theorem textContent_single (n : String) (a : List (String × String))
    (s : String) : textContent (.elem n a [.text s]) = s := rfl

@[simp] theorem elemsNamed_nil (n : String) : elemsNamed n [] = [] := rfl

@[simp] theorem elemsNamed_cons (n : String) (e : XmlNode) (l : List XmlNode) :
    elemsNamed n (e :: l) =
      if isNamed n e then e :: elemsNamed n l else elemsNamed n l := by
  simp [elemsNamed, List.filter_cons]

@[simp] theorem elemsNamed_append (n : String) (l1 l2 : List XmlNode) :
    elemsNamed n (l1 ++ l2) = elemsNamed n l1 ++ elemsNamed n l2 := by
  simp [elemsNamed]

theorem elemsNamed_map_self {β : Type} (n : String) (enc : β → XmlNode)
    (l : List β) (h : ∀ b, isNamed n (enc b) = true) :
    elemsNamed n (l.map enc) = l.map enc :=
  List.filter_eq_self.mpr
    (by intro a ha; obtain ⟨b, _, rfl⟩ := List.mem_map.mp ha; exact h b)

theorem elemsNamed_map_nil {β : Type} (n : String) (enc : β → XmlNode)
    (l : List β) (h : ∀ b, isNamed n (enc b) = false) :
    elemsNamed n (l.map enc) = [] := by
  rw [elemsNamed, List.filter_eq_nil_iff]
  intro a ha; obtain ⟨b, _, rfl⟩ := List.mem_map.mp ha; simp [h b]

/-- How a run of same-named encoded children looks to a named filter: all of
them when the name matches, none otherwise. -/
theorem elemsNamed_map_isNamed {β : Type} (n cn : String) (enc : β → XmlNode)
    (h : ∀ m b, isNamed m (enc b) = (cn == m)) (l : List β) :
    elemsNamed n (l.map enc) = if cn == n then l.map enc else [] := by
  by_cases hc : (cn == n) = true
  · rw [if_pos hc]; exact elemsNamed_map_self n enc l (fun b => (h n b).trans hc)
  · rw [if_neg hc]
    exact elemsNamed_map_nil n enc l
      (fun b => (h n b).trans (Bool.not_eq_true _ ▸ hc))

@[simp] theorem isNamed_encStr (m n s : String) :
    isNamed m (encStr n s) = (n == m) := rfl

@[simp] theorem elemsNamed_map_encStr (n m : String) (l : List String) :
    elemsNamed n (l.map (encStr m)) = if m == n then l.map (encStr m) else [] :=
  elemsNamed_map_isNamed n m (encStr m) (fun _ _ => rfl) l

@[simp] theorem map_comp_textContent_encStr (n : String) (l : List String) :
    List.map (textContent ∘ encStr n) l = l := by
  have h : (textContent ∘ encStr n) = id := by
    funext s; simp [encStr, Function.comp]
  rw [h, List.map_id]

@[simp] theorem map_textContent_encStr (n : String) (l : List String) :
    (l.map (encStr n)).map textContent = l := by
  rw [List.map_map]; exact map_comp_textContent_encStr n l

theorem mapExcept_enc {β : Type} (dec : β → XmlNode → Except String β) (z : β)
    (enc : β → XmlNode) (h : ∀ b, dec z (enc b) = .ok b) (l : List β) :
    mapExcept (dec z) (l.map enc) = .ok l := by
  induction l with
  | nil => rfl
  | cons b tl ih => simp [mapExcept, h b, ih, Bind.bind, Except.bind]

/-! ## Errors

Go errors relevant to the transport: plain errors (`errors.New`, decoder
errors), the `*Fault` error value (whose `Error()` is its faultstring), and
`fmt.Errorf("...%w", err)` wrapping. -/

/-- A Go `error` value as the transport produces it. -/
inductive GoError where
  | simple (msg : String)
  | fault (faultstring : String)
  | wrapped (pre : String) (inner : GoError)

/-- The `Error()` string of the value (`fmt.Errorf("p%w", e)` renders as
`p` followed by `e.Error()`; `(*Fault).Error()` is the faultstring). -/
def GoError.message : GoError → String
  | .simple m => m
  | .fault fs => fs
  | .wrapped p e => p ++ e.message

/-- Whether the error is, or wraps, a `*Fault` (what `errors.As`-style
classification would find). -/
def GoError.isFault : GoError → Bool
  | .simple _ => false
  | .fault _ => true
  | .wrapped _ e => e.isFault

/-- The SOAP fault payload (`type Fault`, part_000 line 333 / client.go
line 164): element `Fault` with a `faultstring` child. -/
structure Fault where
  faultstring : String

/-- The zero value of `Fault`. -/
def Fault.zero : Fault := { faultstring := "" }

/-- Unmarshalling of `Fault` (struct tags `xml:"Fault"` and
`xml:"faultstring"`): `DecodeElement` checks the element name against the
`XMLName` tag, then fills `Faultstring` from the child. -/
def Fault.dec (cur : Fault) : XmlNode → Except String Fault
  | .elem n _ children =>
      if n = "Fault" then
        .ok { faultstring := childStr "faultstring" cur.faultstring children }
      else
        .error ("expected element type <Fault> but have <" ++ n ++ ">")
  | .text _ => .error "expected element"

/-! ## The Generic Body Extractor

`body.UnmarshalXML` (part_000 lines 312–330): read tokens until the first
start-of-element token; decode that one element into the body's content and
skip the rest of the body; on end of input without any element, return
successfully with the destination untouched. -/

/-- `body.UnmarshalXML`, over the body's sibling token stream.  `dec` is
`d.DecodeElement(b.Content, &v)` for the destination's schema. -/
def bodyUnmarshalXML {α : Type} (dec : α → XmlNode → Except String α) (dst : α) :
    List XmlNode → Except String α
  | [] => .ok dst
  | .text _ :: rest => bodyUnmarshalXML dec dst rest
  | .elem n a c :: _ => dec dst (.elem n a c)

/-- `xml.Unmarshal(bytes, dst)` over a captured `innerxml` fragment
(client.go / part_001 response path): parse up to the first element and
decode it; an empty fragment is an `io.EOF` error. -/
def unmarshalFirst {α : Type} (dec : α → XmlNode → Except String α) (dst : α) :
    List XmlNode → Except String α
  | [] => .error "EOF"
  | .text _ :: rest => unmarshalFirst dec dst rest
  | .elem n a c :: _ => dec dst (.elem n a c)

/-! ## The wire and the HTTP response -/

/-- The response body after transfer decoding: either a well-formed SOAP
envelope document whose Body has the given children, or bytes that do not
parse as such a document. -/
inductive RawBody where
  | xml (elems : List XmlNode)
  | malformed

/-- The bytes of the response body as they arrive on the wire. -/
inductive WireBody where
  /-- Not compressed. -/
  | plain (b : RawBody)
  /-- A valid gzip stream whose decompressed content is `b`. -/
  | gzipped (b : RawBody)
  /-- A gzip stream with a valid header that is truncated or corrupted
  further in: `gzip.NewReader` succeeds but reading fails, so the XML decoder
  sees ill-formed input. -/
  | gzipTruncated
  /-- A stream `gzip.NewReader` rejects outright (bad magic/header). -/
  | gzipCorruptHeader

/-- An HTTP response as the transport sees it (`*http.Response`):
`StatusCode`, `Status` text, the `Content-Encoding` header value, and the
body bytes. -/
structure HttpResponse where
  statusCode : Nat
  statusText : String
  contentEncoding : Option String
  body : WireBody

/-- The part_000 / client.go body reader (lines 401–409 / 227–240): when the
`Content-Encoding` header equals `gzip`, the body is wrapped in a
`gzip.Reader` before XML decoding — a corrupt header is an immediate error
and a truncated stream yields ill-formed decoder input; otherwise the raw
bytes are decoded directly (gzip bytes without the header do not parse as
XML). -/
def readBody (resp : HttpResponse) : Except GoError RawBody :=
  if resp.contentEncoding = some "gzip" then
    match resp.body with
    | .gzipped b => .ok b
    | .gzipTruncated => .ok .malformed
    | .gzipCorruptHeader => .error (.simple "gzip: invalid header")
    | .plain _ => .error (.simple "gzip: invalid header")
  else
    match resp.body with
    | .plain b => .ok b
    | _ => .ok .malformed

/-- The part_001 body reader: no gzip handling at all — the raw bytes go
straight to the XML decoder. -/
def readBodyNoGzip (resp : HttpResponse) : RawBody :=
  match resp.body with
  | .plain b => b
  | _ => .malformed

/-! ## The three Transport Invokers -/

/-- Propagating a destination decode to the caller: a decoder failure is
returned verbatim as the call's error, a decoded value is the call's
success (`return dec.Decode(...)` / `return xml.Unmarshal(...)`). -/
def decodeOutcome {α : Type} : Except String α → Except GoError α
  | .error m => .error (.simple m)
  | .ok v => .ok v

/-- `Client.call` of part_000 (lines 372–425), from the point where the HTTP
response has arrived (transport errors abort earlier and are returned
verbatim).  On a non-200 status the body's sole element is decoded as a
`Fault` and returned wrapped as `fmt.Errorf("fault: %w", fault)`; on 200 the
sole element is decoded into the caller's destination. -/
def call_dodp {α : Type} (resp : HttpResponse)
    (dec : α → XmlNode → Except String α) (dst : α) : Except GoError α :=
  match readBody resp with
  | .error e => .error e
  | .ok .malformed => .error (.simple "XML syntax error")
  | .ok (.xml elems) =>
    if resp.statusCode ≠ 200 then
      match bodyUnmarshalXML Fault.dec Fault.zero elems with
      | .error m => .error (.simple m)
      | .ok f => .error (.wrapped "fault: " (.fault f.faultstring))
    else decodeOutcome (bodyUnmarshalXML dec dst elems)

/-- `Client.call` of client.go (lines 197–250): the envelope is decoded into
an `innerxml` capture first; then a non-200 status unmarshals the captured
body as a `Fault` and returns the fault itself as the error, while a 200
status unmarshals it into the caller's destination. -/
def call_client {α : Type} (resp : HttpResponse)
    (dec : α → XmlNode → Except String α) (dst : α) : Except GoError α :=
  match readBody resp with
  | .error e => .error e
  | .ok .malformed => .error (.simple "XML syntax error")
  | .ok (.xml elems) =>
    if resp.statusCode ≠ 200 then
      match unmarshalFirst Fault.dec Fault.zero elems with
      | .error m => .error (.simple m)
      | .ok f => .error (.fault f.faultstring)
    else decodeOutcome (unmarshalFirst dec dst elems)

/-- `Client.call` of part_001 (lines 198–240): a non-200 status returns
`errors.New(resp.Status)` before the body is read at all; a 200 status
decodes the `innerxml` capture into the destination.  No gzip handling. -/
def call_daisy {α : Type} (resp : HttpResponse)
    (dec : α → XmlNode → Except String α) (dst : α) : Except GoError α :=
  if resp.statusCode ≠ 200 then .error (.simple resp.statusText)
  else
    match readBodyNoGzip resp with
    | .malformed => .error (.simple "XML syntax error")
    | .xml elems => decodeOutcome (unmarshalFirst dec dst elems)

/-! ## Request construction -/

/-- The parts of an `*http.Request` the invokers set. -/
structure HttpRequest where
  method : String
  url : String
  headers : List (String × String)

/-- `http.NewRequest(method, url, body)`: no headers yet. -/
def newRequest (method url : String) : HttpRequest :=
  { method := method, url := url, headers := [] }

/-- `req.Header.Add(k, v)`. -/
def addHeader (r : HttpRequest) (k v : String) : HttpRequest :=
  { r with headers := r.headers ++ [(k, v)] }

/-- The request part_000's `call` issues (lines 385–393): POST to the
client's URL with the four fixed headers. -/
def buildRequest_dodp (url action : String) : HttpRequest :=
  addHeader (addHeader (addHeader (addHeader (newRequest "POST" url)
    "Content-Type" "text/xml; charset=utf-8")
    "Accept" "text/xml")
    "Accept-Encoding" "gzip")
    "SOAPAction" ("/" ++ action)

/-- The request client.go's `call` issues (lines 211–219): identical headers
to part_000. -/
def buildRequest_client (url action : String) : HttpRequest :=
  buildRequest_dodp url action

/-- The request part_001's `call` issues (lines 212–220): only three headers
— no `Accept-Encoding`. -/
def buildRequest_daisy (url action : String) : HttpRequest :=
  addHeader (addHeader (addHeader (newRequest "POST" url)
    "Content-Type" "text/xml; charset=utf-8")
    "Accept" "text/xml")
    "SOAPAction" ("/" ++ action)

/-! ## The Envelope Codec -/

/-- A serialized request document: the XML declaration (`xml.Header`)
followed by the envelope element. -/
structure XmlDoc where
  hasDecl : Bool
  root : XmlNode

/-- Encoding a request (part_000 lines 372–383 / client.go lines 197–209 at
the tree level): the payload element inside a Body inside an Envelope,
preceded by the XML declaration.  Namespaces are fixed constants and element
names are modelled as resolved local names. -/
def envelopeEncode (payload : XmlNode) : XmlDoc :=
  { hasDecl := true, root := .elem "Envelope" [] [.elem "Body" [] [payload]] }

/-- Locating the Body's children in a received envelope document (the part of
envelope decoding that feeds the Generic Body Extractor). -/
def extractBodyElems (doc : XmlDoc) : Option (List XmlNode) :=
  match doc.root with
  | .elem "Envelope" _ [.elem "Body" _ cs] => some cs
  | _ => none

/-! ## The message-schema catalogue (part_000 lines 1–263, bookmarks.go)

One Lean structure per Go struct, fields in declaration order.  `XMLName`
markers are represented by the literal element names in the encoders and
decoders (they carry no caller-chosen data); Go `int`/`int32`/`int64` fields
are `Int`; slices are `List`; pointers are `Option`.  For every shape:
the zero value, the `encoding/xml` marshaller `enc`, the unmarshaller `dec`
(which checks the `XMLName` tag where `DecodeElement` would), and a
round-trip lemma. -/

/-- Go struct `Audio` (attributes `uri`, `rangeBegin`, `rangeEnd`, `size`). -/
structure Audio where
  uri : String
  rangeBegin : Int
  rangeEnd : Int
  size : Int

def Audio.zero : Audio := { uri := "", rangeBegin := 0, rangeEnd := 0, size := 0 }

def Audio.enc (x : Audio) : XmlNode :=
  .elem "audio"
    [("uri", x.uri), ("rangeBegin", intPrint x.rangeBegin),
     ("rangeEnd", intPrint x.rangeEnd), ("size", intPrint x.size)] []

def Audio.dec (cur : Audio) : XmlNode → Except String Audio
  | .elem n attrs _ =>
      if n = "audio" then do
        let rb ← attrInt "rangeBegin" cur.rangeBegin attrs
        let re ← attrInt "rangeEnd" cur.rangeEnd attrs
        let sz ← attrInt "size" cur.size attrs
        .ok { uri := attrStr "uri" cur.uri attrs,
              rangeBegin := rb, rangeEnd := re, size := sz }
      else .error ("expected element type <audio> but have <" ++ n ++ ">")
  | .text _ => .error "expected element"

@[simp] theorem isNamed_Audio_enc (m : String) (x : Audio) :
    isNamed m (Audio.enc x) = ("audio" == m) := rfl

theorem Audio_rt (x : Audio) : Audio.dec Audio.zero (Audio.enc x) = .ok x := by
  obtain ⟨u, rb, re, sz⟩ := x
  simp [Audio.dec, Audio.enc, attrStr, attrInt, intParse_intPrint,
    Bind.bind, Except.bind]

/-- Go struct `Label` (attributes `lang`, `dir`; children `text`, `audio`). -/
structure Label where
  lang : String
  dir : String
  text : String
  audio : Audio

def Label.zero : Label :=
  { lang := "", dir := "", text := "", audio := Audio.zero }

def Label.enc (x : Label) : XmlNode :=
  .elem "label" [("lang", x.lang), ("dir", x.dir)]
    [encStr "text" x.text, Audio.enc x.audio]

def Label.dec (cur : Label) : XmlNode → Except String Label
  | .elem n attrs children =>
      if n = "label" then do
        let a ← childStruct Audio.dec "audio" cur.audio children
        .ok { lang := attrStr "lang" cur.lang attrs,
              dir := attrStr "dir" cur.dir attrs,
              text := childStr "text" cur.text children,
              audio := a }
      else .error ("expected element type <label> but have <" ++ n ++ ">")
  | .text _ => .error "expected element"

@[simp] theorem isNamed_Label_enc (m : String) (x : Label) :
    isNamed m (Label.enc x) = ("label" == m) := rfl

theorem Label_rt (x : Label) : Label.dec Label.zero (Label.enc x) = .ok x := by
  obtain ⟨lg, dr, tx, au⟩ := x
  simp [Label.dec, Label.enc, Label.zero, childStruct, childStr, lastElem,
    attrStr, encStr, Audio_rt, Bind.bind, Except.bind]

/-- Go struct `ServiceProvider` (attribute `id`; child `label`). -/
structure ServiceProvider where
  id : String
  label : Label

def ServiceProvider.zero : ServiceProvider := { id := "", label := Label.zero }

def ServiceProvider.enc (x : ServiceProvider) : XmlNode :=
  .elem "serviceProvider" [("id", x.id)] [Label.enc x.label]

def ServiceProvider.dec (cur : ServiceProvider) :
    XmlNode → Except String ServiceProvider
  | .elem n attrs children =>
      if n = "serviceProvider" then do
        let l ← childStruct Label.dec "label" cur.label children
        .ok { id := attrStr "id" cur.id attrs, label := l }
      else .error ("expected element type <serviceProvider> but have <" ++ n ++ ">")
  | .text _ => .error "expected element"

@[simp] theorem isNamed_ServiceProvider_enc (m : String) (x : ServiceProvider) :
    isNamed m (ServiceProvider.enc x) = ("serviceProvider" == m) := rfl

theorem ServiceProvider_rt (x : ServiceProvider) :
    ServiceProvider.dec ServiceProvider.zero (ServiceProvider.enc x) = .ok x := by
  obtain ⟨i, l⟩ := x
  simp [ServiceProvider.dec, ServiceProvider.enc, ServiceProvider.zero,
    childStruct, lastElem, attrStr, Label_rt, Bind.bind, Except.bind]

/-- Go struct `Service` (attribute `id`; child `label`). -/
structure Service where
  id : String
  label : Label

def Service.zero : Service := { id := "", label := Label.zero }

def Service.enc (x : Service) : XmlNode :=
  .elem "service" [("id", x.id)] [Label.enc x.label]

def Service.dec (cur : Service) : XmlNode → Except String Service
  | .elem n attrs children =>
      if n = "service" then do
        let l ← childStruct Label.dec "label" cur.label children
        .ok { id := attrStr "id" cur.id attrs, label := l }
      else .error ("expected element type <service> but have <" ++ n ++ ">")
  | .text _ => .error "expected element"

@[simp] theorem isNamed_Service_enc (m : String) (x : Service) :
    isNamed m (Service.enc x) = ("service" == m) := rfl

theorem Service_rt (x : Service) :
    Service.dec Service.zero (Service.enc x) = .ok x := by
  obtain ⟨i, l⟩ := x
  simp [Service.dec, Service.enc, Service.zero, childStruct, lastElem,
    attrStr, Label_rt, Bind.bind, Except.bind]

/-- Go struct `SupportedContentSelectionMethods` (children `method`). -/
structure SupportedContentSelectionMethods where
  method : List String

def SupportedContentSelectionMethods.zero : SupportedContentSelectionMethods :=
  { method := [] }

def SupportedContentSelectionMethods.enc
    (x : SupportedContentSelectionMethods) : XmlNode :=
  .elem "supportedContentSelectionMethods" [] (x.method.map (encStr "method"))

def SupportedContentSelectionMethods.dec
    (cur : SupportedContentSelectionMethods) :
    XmlNode → Except String SupportedContentSelectionMethods
  | .elem n _ children =>
      if n = "supportedContentSelectionMethods" then
        .ok { method := childStrs "method" cur.method children }
      else .error ("expected element type <supportedContentSelectionMethods> but have <"
        ++ n ++ ">")
  | .text _ => .error "expected element"

@[simp] theorem isNamed_SCSM_enc (m : String)
    (x : SupportedContentSelectionMethods) :
    isNamed m (SupportedContentSelectionMethods.enc x) =
      ("supportedContentSelectionMethods" == m) := rfl

theorem SCSM_rt (x : SupportedContentSelectionMethods) :
    SupportedContentSelectionMethods.dec SupportedContentSelectionMethods.zero
      (SupportedContentSelectionMethods.enc x) = .ok x := by
  obtain ⟨l⟩ := x
  simp [SupportedContentSelectionMethods.dec, SupportedContentSelectionMethods.enc,
    SupportedContentSelectionMethods.zero, childStrs]

/-- Go struct `SupportedUplinkAudioCodecs` (children `codec`). -/
structure SupportedUplinkAudioCodecs where
  codec : List String

def SupportedUplinkAudioCodecs.zero : SupportedUplinkAudioCodecs := { codec := [] }

def SupportedUplinkAudioCodecs.enc (x : SupportedUplinkAudioCodecs) : XmlNode :=
  .elem "supportedUplinkAudioCodecs" [] (x.codec.map (encStr "codec"))

def SupportedUplinkAudioCodecs.dec (cur : SupportedUplinkAudioCodecs) :
    XmlNode → Except String SupportedUplinkAudioCodecs
  | .elem n _ children =>
      if n = "supportedUplinkAudioCodecs" then
        .ok { codec := childStrs "codec" cur.codec children }
      else .error ("expected element type <supportedUplinkAudioCodecs> but have <"
        ++ n ++ ">")
  | .text _ => .error "expected element"

@[simp] theorem isNamed_SUAC_enc (m : String) (x : SupportedUplinkAudioCodecs) :
    isNamed m (SupportedUplinkAudioCodecs.enc x) =
      ("supportedUplinkAudioCodecs" == m) := rfl

theorem SUAC_rt (x : SupportedUplinkAudioCodecs) :
    SupportedUplinkAudioCodecs.dec SupportedUplinkAudioCodecs.zero
      (SupportedUplinkAudioCodecs.enc x) = .ok x := by
  obtain ⟨l⟩ := x
  simp [SupportedUplinkAudioCodecs.dec, SupportedUplinkAudioCodecs.enc,
    SupportedUplinkAudioCodecs.zero, childStrs]

/-- Go struct `SupportedOptionalOperations` (children `operation`). -/
structure SupportedOptionalOperations where
  operation : List String

def SupportedOptionalOperations.zero : SupportedOptionalOperations :=
  { operation := [] }

def SupportedOptionalOperations.enc (x : SupportedOptionalOperations) : XmlNode :=
  .elem "supportedOptionalOperations" [] (x.operation.map (encStr "operation"))

def SupportedOptionalOperations.dec (cur : SupportedOptionalOperations) :
    XmlNode → Except String SupportedOptionalOperations
  | .elem n _ children =>
      if n = "supportedOptionalOperations" then
        .ok { operation := childStrs "operation" cur.operation children }
      else .error ("expected element type <supportedOptionalOperations> but have <"
        ++ n ++ ">")
  | .text _ => .error "expected element"

@[simp] theorem isNamed_SOO_enc (m : String) (x : SupportedOptionalOperations) :
    isNamed m (SupportedOptionalOperations.enc x) =
      ("supportedOptionalOperations" == m) := rfl

theorem SOO_rt (x : SupportedOptionalOperations) :
    SupportedOptionalOperations.dec SupportedOptionalOperations.zero
      (SupportedOptionalOperations.enc x) = .ok x := by
  obtain ⟨l⟩ := x
  simp [SupportedOptionalOperations.dec, SupportedOptionalOperations.enc,
    SupportedOptionalOperations.zero, childStrs]

/-- Go struct `ServiceAttributes` (part_000 lines 9–19), children in field
order. -/
structure ServiceAttributes where
  serviceProvider : ServiceProvider
  service : Service
  supportedContentSelectionMethods : SupportedContentSelectionMethods
  supportsServerSideBack : Bool
  supportsSearch : Bool
  supportedUplinkAudioCodecs : SupportedUplinkAudioCodecs
  supportsAudioLabels : Bool
  supportedOptionalOperations : SupportedOptionalOperations

def ServiceAttributes.zero : ServiceAttributes :=
  { serviceProvider := ServiceProvider.zero, service := Service.zero,
    supportedContentSelectionMethods := SupportedContentSelectionMethods.zero,
    supportsServerSideBack := false, supportsSearch := false,
    supportedUplinkAudioCodecs := SupportedUplinkAudioCodecs.zero,
    supportsAudioLabels := false,
    supportedOptionalOperations := SupportedOptionalOperations.zero }

def ServiceAttributes.enc (x : ServiceAttributes) : XmlNode :=
  .elem "serviceAttributes" []
    [ServiceProvider.enc x.serviceProvider,
     Service.enc x.service,
     SupportedContentSelectionMethods.enc x.supportedContentSelectionMethods,
     encBool "supportsServerSideBack" x.supportsServerSideBack,
     encBool "supportsSearch" x.supportsSearch,
     SupportedUplinkAudioCodecs.enc x.supportedUplinkAudioCodecs,
     encBool "supportsAudioLabels" x.supportsAudioLabels,
     SupportedOptionalOperations.enc x.supportedOptionalOperations]

def ServiceAttributes.dec (cur : ServiceAttributes) :
    XmlNode → Except String ServiceAttributes
  | .elem n _ children =>
      if n = "serviceAttributes" then do
        let sp ← childStruct ServiceProvider.dec "serviceProvider"
          cur.serviceProvider children
        let sv ← childStruct Service.dec "service" cur.service children
        let csm ← childStruct SupportedContentSelectionMethods.dec
          "supportedContentSelectionMethods"
          cur.supportedContentSelectionMethods children
        let b1 ← childBool "supportsServerSideBack" cur.supportsServerSideBack children
        let b2 ← childBool "supportsSearch" cur.supportsSearch children
        let uac ← childStruct SupportedUplinkAudioCodecs.dec
          "supportedUplinkAudioCodecs" cur.supportedUplinkAudioCodecs children
        let b3 ← childBool "supportsAudioLabels" cur.supportsAudioLabels children
        let soo ← childStruct SupportedOptionalOperations.dec
          "supportedOptionalOperations" cur.supportedOptionalOperations children
        .ok { serviceProvider := sp, service := sv,
              supportedContentSelectionMethods := csm,
              supportsServerSideBack := b1, supportsSearch := b2,
              supportedUplinkAudioCodecs := uac, supportsAudioLabels := b3,
              supportedOptionalOperations := soo }
      else .error ("expected element type <serviceAttributes> but have <" ++ n ++ ">")
  | .text _ => .error "expected element"

@[simp] theorem isNamed_ServiceAttributes_enc (m : String) (x : ServiceAttributes) :
    isNamed m (ServiceAttributes.enc x) = ("serviceAttributes" == m) := rfl

theorem ServiceAttributes_rt (x : ServiceAttributes) :
    ServiceAttributes.dec ServiceAttributes.zero (ServiceAttributes.enc x) =
      .ok x := by
  obtain ⟨sp, sv, csm, b1, b2, uac, b3, soo⟩ := x
  simp [ServiceAttributes.dec, ServiceAttributes.enc, ServiceAttributes.zero,
    childStruct, childBool, childStr, lastElem, encBool, parseBool_boolStr,
    ServiceProvider_rt, Service_rt, SCSM_rt, SUAC_rt, SOO_rt,
    Bind.bind, Except.bind]

/-- Go struct `SupportedContentFormats` (children `contentFormat`). -/
structure SupportedContentFormats where
  contentFormat : List String

def SupportedContentFormats.zero : SupportedContentFormats :=
  { contentFormat := [] }

def SupportedContentFormats.enc (x : SupportedContentFormats) : XmlNode :=
  .elem "supportedContentFormats" [] (x.contentFormat.map (encStr "contentFormat"))

def SupportedContentFormats.dec (cur : SupportedContentFormats) :
    XmlNode → Except String SupportedContentFormats
  | .elem n _ children =>
      if n = "supportedContentFormats" then
        .ok { contentFormat := childStrs "contentFormat" cur.contentFormat children }
      else .error ("expected element type <supportedContentFormats> but have <"
        ++ n ++ ">")
  | .text _ => .error "expected element"

@[simp] theorem isNamed_SCF_enc (m : String) (x : SupportedContentFormats) :
    isNamed m (SupportedContentFormats.enc x) = ("supportedContentFormats" == m) := rfl

theorem SCF_rt (x : SupportedContentFormats) :
    SupportedContentFormats.dec SupportedContentFormats.zero
      (SupportedContentFormats.enc x) = .ok x := by
  obtain ⟨l⟩ := x
  simp [SupportedContentFormats.dec, SupportedContentFormats.enc,
    SupportedContentFormats.zero, childStrs]

/-- Go struct `SupportedContentProtectionFormats` (children `protectionFormat`). -/
structure SupportedContentProtectionFormats where
  protectionFormat : List String

def SupportedContentProtectionFormats.zero : SupportedContentProtectionFormats :=
  { protectionFormat := [] }

def SupportedContentProtectionFormats.enc
    (x : SupportedContentProtectionFormats) : XmlNode :=
  .elem "supportedContentProtectionFormats" []
    (x.protectionFormat.map (encStr "protectionFormat"))

def SupportedContentProtectionFormats.dec
    (cur : SupportedContentProtectionFormats) :
    XmlNode → Except String SupportedContentProtectionFormats
  | .elem n _ children =>
      if n = "supportedContentProtectionFormats" then
        .ok { protectionFormat :=
                childStrs "protectionFormat" cur.protectionFormat children }
      else .error ("expected element type <supportedContentProtectionFormats> but have <"
        ++ n ++ ">")
  | .text _ => .error "expected element"

@[simp] theorem isNamed_SCPF_enc (m : String)
    (x : SupportedContentProtectionFormats) :
    isNamed m (SupportedContentProtectionFormats.enc x) =
      ("supportedContentProtectionFormats" == m) := rfl

theorem SCPF_rt (x : SupportedContentProtectionFormats) :
    SupportedContentProtectionFormats.dec SupportedContentProtectionFormats.zero
      (SupportedContentProtectionFormats.enc x) = .ok x := by
  obtain ⟨l⟩ := x
  simp [SupportedContentProtectionFormats.dec,
    SupportedContentProtectionFormats.enc,
    SupportedContentProtectionFormats.zero, childStrs]

/-- Go struct `MimeType` (attribute `type`). -/
structure MimeType where
  type : String

def MimeType.zero : MimeType := { type := "" }

def MimeType.enc (x : MimeType) : XmlNode :=
  .elem "mimeType" [("type", x.type)] []

def MimeType.dec (cur : MimeType) : XmlNode → Except String MimeType
  | .elem n attrs _ =>
      if n = "mimeType" then
        .ok { type := attrStr "type" cur.type attrs }
      else .error ("expected element type <mimeType> but have <" ++ n ++ ">")
  | .text _ => .error "expected element"

@[simp] theorem isNamed_MimeType_enc (m : String) (x : MimeType) :
    isNamed m (MimeType.enc x) = ("mimeType" == m) := rfl

theorem MimeType_rt (x : MimeType) :
    MimeType.dec MimeType.zero (MimeType.enc x) = .ok x := by
  obtain ⟨t⟩ := x
  simp [MimeType.dec, MimeType.enc, attrStr]

@[simp] theorem elemsNamed_map_MimeType_enc (n : String) (l : List MimeType) :
    elemsNamed n (l.map MimeType.enc) =
      if "mimeType" == n then l.map MimeType.enc else [] :=
  elemsNamed_map_isNamed n "mimeType" MimeType.enc (fun _ _ => rfl) l

@[simp] theorem mapExcept_MimeType (l : List MimeType) :
    mapExcept (MimeType.dec MimeType.zero) (l.map MimeType.enc) = .ok l :=
  mapExcept_enc MimeType.dec MimeType.zero MimeType.enc MimeType_rt l

/-- Go struct `SupportedMimeTypes` (children `mimeType`). -/
structure SupportedMimeTypes where
  mimeType : List MimeType

def SupportedMimeTypes.zero : SupportedMimeTypes := { mimeType := [] }

def SupportedMimeTypes.enc (x : SupportedMimeTypes) : XmlNode :=
  .elem "supportedMimeTypes" [] (x.mimeType.map MimeType.enc)

def SupportedMimeTypes.dec (cur : SupportedMimeTypes) :
    XmlNode → Except String SupportedMimeTypes
  | .elem n _ children =>
      if n = "supportedMimeTypes" then do
        let l ← childList MimeType.dec MimeType.zero "mimeType" cur.mimeType children
        .ok { mimeType := l }
      else .error ("expected element type <supportedMimeTypes> but have <" ++ n ++ ">")
  | .text _ => .error "expected element"

@[simp] theorem isNamed_SupportedMimeTypes_enc (m : String)
    (x : SupportedMimeTypes) :
    isNamed m (SupportedMimeTypes.enc x) = ("supportedMimeTypes" == m) := rfl

theorem SupportedMimeTypes_rt (x : SupportedMimeTypes) :
    SupportedMimeTypes.dec SupportedMimeTypes.zero (SupportedMimeTypes.enc x) =
      .ok x := by
  obtain ⟨l⟩ := x
  simp [SupportedMimeTypes.dec, SupportedMimeTypes.enc, SupportedMimeTypes.zero,
    childList, Bind.bind, Except.bind, Except.map]

/-- Go struct `Input` (attribute `type`). -/
structure Input where
  type : String

def Input.zero : Input := { type := "" }

def Input.enc (x : Input) : XmlNode :=
  .elem "input" [("type", x.type)] []

def Input.dec (cur : Input) : XmlNode → Except String Input
  | .elem n attrs _ =>
      if n = "input" then
        .ok { type := attrStr "type" cur.type attrs }
      else .error ("expected element type <input> but have <" ++ n ++ ">")
  | .text _ => .error "expected element"

@[simp] theorem isNamed_Input_enc (m : String) (x : Input) :
    isNamed m (Input.enc x) = ("input" == m) := rfl

theorem Input_rt (x : Input) : Input.dec Input.zero (Input.enc x) = .ok x := by
  obtain ⟨t⟩ := x
  simp [Input.dec, Input.enc, attrStr]

@[simp] theorem elemsNamed_map_Input_enc (n : String) (l : List Input) :
    elemsNamed n (l.map Input.enc) =
      if "input" == n then l.map Input.enc else [] :=
  elemsNamed_map_isNamed n "input" Input.enc (fun _ _ => rfl) l

@[simp] theorem mapExcept_Input (l : List Input) :
    mapExcept (Input.dec Input.zero) (l.map Input.enc) = .ok l :=
  mapExcept_enc Input.dec Input.zero Input.enc Input_rt l

/-- Go struct `SupportedInputTypes` (children `input`). -/
structure SupportedInputTypes where
  input : List Input

def SupportedInputTypes.zero : SupportedInputTypes := { input := [] }

def SupportedInputTypes.enc (x : SupportedInputTypes) : XmlNode :=
  .elem "supportedInputTypes" [] (x.input.map Input.enc)

def SupportedInputTypes.dec (cur : SupportedInputTypes) :
    XmlNode → Except String SupportedInputTypes
  | .elem n _ children =>
      if n = "supportedInputTypes" then do
        let l ← childList Input.dec Input.zero "input" cur.input children
        .ok { input := l }
      else .error ("expected element type <supportedInputTypes> but have <" ++ n ++ ">")
  | .text _ => .error "expected element"

@[simp] theorem isNamed_SupportedInputTypes_enc (m : String)
    (x : SupportedInputTypes) :
    isNamed m (SupportedInputTypes.enc x) = ("supportedInputTypes" == m) := rfl

theorem SupportedInputTypes_rt (x : SupportedInputTypes) :
    SupportedInputTypes.dec SupportedInputTypes.zero
      (SupportedInputTypes.enc x) = .ok x := by
  obtain ⟨l⟩ := x
  simp [SupportedInputTypes.dec, SupportedInputTypes.enc,
    SupportedInputTypes.zero, childList, Bind.bind, Except.bind, Except.map]

/-- Go struct `Config` (part_000 lines 81–90), children in field order. -/
structure Config where
  supportsMultipleSelections : Bool
  preferredUILanguage : String
  supportedContentFormats : SupportedContentFormats
  supportedContentProtectionFormats : SupportedContentProtectionFormats
  supportedMimeTypes : SupportedMimeTypes
  supportedInputTypes : SupportedInputTypes
  requiresAudioLabels : Bool

def Config.zero : Config :=
  { supportsMultipleSelections := false, preferredUILanguage := "",
    supportedContentFormats := SupportedContentFormats.zero,
    supportedContentProtectionFormats := SupportedContentProtectionFormats.zero,
    supportedMimeTypes := SupportedMimeTypes.zero,
    supportedInputTypes := SupportedInputTypes.zero,
    requiresAudioLabels := false }

def Config.enc (x : Config) : XmlNode :=
  .elem "config" []
    [encBool "supportsMultipleSelections" x.supportsMultipleSelections,
     encStr "preferredUILanguage" x.preferredUILanguage,
     SupportedContentFormats.enc x.supportedContentFormats,
     SupportedContentProtectionFormats.enc x.supportedContentProtectionFormats,
     SupportedMimeTypes.enc x.supportedMimeTypes,
     SupportedInputTypes.enc x.supportedInputTypes,
     encBool "requiresAudioLabels" x.requiresAudioLabels]

def Config.dec (cur : Config) : XmlNode → Except String Config
  | .elem n _ children =>
      if n = "config" then do
        let b1 ← childBool "supportsMultipleSelections"
          cur.supportsMultipleSelections children
        let cf ← childStruct SupportedContentFormats.dec "supportedContentFormats"
          cur.supportedContentFormats children
        let pf ← childStruct SupportedContentProtectionFormats.dec
          "supportedContentProtectionFormats"
          cur.supportedContentProtectionFormats children
        let mt ← childStruct SupportedMimeTypes.dec "supportedMimeTypes"
          cur.supportedMimeTypes children
        let it ← childStruct SupportedInputTypes.dec "supportedInputTypes"
          cur.supportedInputTypes children
        let b2 ← childBool "requiresAudioLabels" cur.requiresAudioLabels children
        .ok { supportsMultipleSelections := b1,
              preferredUILanguage :=
                childStr "preferredUILanguage" cur.preferredUILanguage children,
              supportedContentFormats := cf,
              supportedContentProtectionFormats := pf,
              supportedMimeTypes := mt, supportedInputTypes := it,
              requiresAudioLabels := b2 }
      else .error ("expected element type <config> but have <" ++ n ++ ">")
  | .text _ => .error "expected element"

@[simp] theorem isNamed_Config_enc (m : String) (x : Config) :
    isNamed m (Config.enc x) = ("config" == m) := rfl

theorem Config_rt (x : Config) : Config.dec Config.zero (Config.enc x) = .ok x := by
  obtain ⟨b1, pl, cf, pf, mt, it, b2⟩ := x
  simp [Config.dec, Config.enc, Config.zero, childStruct, childBool, childStr,
    lastElem, encBool, encStr, parseBool_boolStr, SCF_rt, SCPF_rt,
    SupportedMimeTypes_rt, SupportedInputTypes_rt, Bind.bind, Except.bind]

/-- Go struct `ReadingSystemAttributes` (part_000 lines 73–79). -/
structure ReadingSystemAttributes where
  manufacturer : String
  model : String
  version : String
  config : Config

def ReadingSystemAttributes.zero : ReadingSystemAttributes :=
  { manufacturer := "", model := "", version := "", config := Config.zero }

def ReadingSystemAttributes.enc (x : ReadingSystemAttributes) : XmlNode :=
  .elem "readingSystemAttributes" []
    [encStr "manufacturer" x.manufacturer, encStr "model" x.model,
     encStr "version" x.version, Config.enc x.config]

def ReadingSystemAttributes.dec (cur : ReadingSystemAttributes) :
    XmlNode → Except String ReadingSystemAttributes
  | .elem n _ children =>
      if n = "readingSystemAttributes" then do
        let c ← childStruct Config.dec "config" cur.config children
        .ok { manufacturer := childStr "manufacturer" cur.manufacturer children,
              model := childStr "model" cur.model children,
              version := childStr "version" cur.version children,
              config := c }
      else .error ("expected element type <readingSystemAttributes> but have <"
        ++ n ++ ">")
  | .text _ => .error "expected element"

@[simp] theorem isNamed_RSA_enc (m : String) (x : ReadingSystemAttributes) :
    isNamed m (ReadingSystemAttributes.enc x) = ("readingSystemAttributes" == m) := rfl

theorem RSA_rt (x : ReadingSystemAttributes) :
    ReadingSystemAttributes.dec ReadingSystemAttributes.zero
      (ReadingSystemAttributes.enc x) = .ok x := by
  obtain ⟨mf, md, vs, cf⟩ := x
  simp [ReadingSystemAttributes.dec, ReadingSystemAttributes.enc,
    ReadingSystemAttributes.zero, childStruct, childStr, lastElem, encStr,
    Config_rt, Bind.bind, Except.bind]

/-- Go struct `ContentItem` (attributes `id`, `lastModifiedDate`; child
`label`). -/
structure ContentItem where
  id : String
  lastModifiedDate : String
  label : Label

def ContentItem.zero : ContentItem :=
  { id := "", lastModifiedDate := "", label := Label.zero }

def ContentItem.enc (x : ContentItem) : XmlNode :=
  .elem "contentItem" [("id", x.id), ("lastModifiedDate", x.lastModifiedDate)]
    [Label.enc x.label]

def ContentItem.dec (cur : ContentItem) : XmlNode → Except String ContentItem
  | .elem n attrs children =>
      if n = "contentItem" then do
        let l ← childStruct Label.dec "label" cur.label children
        .ok { id := attrStr "id" cur.id attrs,
              lastModifiedDate :=
                attrStr "lastModifiedDate" cur.lastModifiedDate attrs,
              label := l }
      else .error ("expected element type <contentItem> but have <" ++ n ++ ">")
  | .text _ => .error "expected element"

@[simp] theorem isNamed_ContentItem_enc (m : String) (x : ContentItem) :
    isNamed m (ContentItem.enc x) = ("contentItem" == m) := rfl

theorem ContentItem_rt (x : ContentItem) :
    ContentItem.dec ContentItem.zero (ContentItem.enc x) = .ok x := by
  obtain ⟨i, d, l⟩ := x
  simp [ContentItem.dec, ContentItem.enc, ContentItem.zero, childStruct,
    lastElem, attrStr, Label_rt, Bind.bind, Except.bind]

@[simp] theorem elemsNamed_map_ContentItem_enc (n : String) (l : List ContentItem) :
    elemsNamed n (l.map ContentItem.enc) =
      if "contentItem" == n then l.map ContentItem.enc else [] :=
  elemsNamed_map_isNamed n "contentItem" ContentItem.enc (fun _ _ => rfl) l

@[simp] theorem mapExcept_ContentItem (l : List ContentItem) :
    mapExcept (ContentItem.dec ContentItem.zero) (l.map ContentItem.enc) = .ok l :=
  mapExcept_enc ContentItem.dec ContentItem.zero ContentItem.enc ContentItem_rt l

/-- Go struct `ContentList` (attributes `totalItems`, `firstItem`, `lastItem`,
`id`; children `label` then the `contentItem` items). -/
structure ContentList where
  totalItems : Int
  firstItem : Int
  lastItem : Int
  id : String
  label : Label
  contentItems : List ContentItem

def ContentList.zero : ContentList :=
  { totalItems := 0, firstItem := 0, lastItem := 0, id := "",
    label := Label.zero, contentItems := [] }

def ContentList.enc (x : ContentList) : XmlNode :=
  .elem "contentList"
    [("totalItems", intPrint x.totalItems), ("firstItem", intPrint x.firstItem),
     ("lastItem", intPrint x.lastItem), ("id", x.id)]
    (Label.enc x.label :: x.contentItems.map ContentItem.enc)

def ContentList.dec (cur : ContentList) : XmlNode → Except String ContentList
  | .elem n attrs children =>
      if n = "contentList" then do
        let ti ← attrInt "totalItems" cur.totalItems attrs
        let fi ← attrInt "firstItem" cur.firstItem attrs
        let li ← attrInt "lastItem" cur.lastItem attrs
        let lb ← childStruct Label.dec "label" cur.label children
        let items ← childList ContentItem.dec ContentItem.zero "contentItem"
          cur.contentItems children
        .ok { totalItems := ti, firstItem := fi, lastItem := li,
              id := attrStr "id" cur.id attrs, label := lb,
              contentItems := items }
      else .error ("expected element type <contentList> but have <" ++ n ++ ">")
  | .text _ => .error "expected element"

@[simp] theorem isNamed_ContentList_enc (m : String) (x : ContentList) :
    isNamed m (ContentList.enc x) = ("contentList" == m) := rfl

theorem ContentList_rt (x : ContentList) :
    ContentList.dec ContentList.zero (ContentList.enc x) = .ok x := by
  obtain ⟨ti, fi, li, i, lb, items⟩ := x
  simp [ContentList.dec, ContentList.enc, ContentList.zero, childStruct,
    childList, lastElem, attrStr, attrInt, intParse_intPrint, Label_rt,
    Bind.bind, Except.bind, Except.map]

/-- Go struct `Sample` (attribute `id`). -/
structure Sample where
  id : String

def Sample.zero : Sample := { id := "" }

def Sample.enc (x : Sample) : XmlNode := .elem "sample" [("id", x.id)] []

def Sample.dec (cur : Sample) : XmlNode → Except String Sample
  | .elem n attrs _ =>
      if n = "sample" then
        .ok { id := attrStr "id" cur.id attrs }
      else .error ("expected element type <sample> but have <" ++ n ++ ">")
  | .text _ => .error "expected element"

@[simp] theorem isNamed_Sample_enc (m : String) (x : Sample) :
    isNamed m (Sample.enc x) = ("sample" == m) := rfl

theorem Sample_rt (x : Sample) : Sample.dec Sample.zero (Sample.enc x) = .ok x := by
  obtain ⟨i⟩ := x
  simp [Sample.dec, Sample.enc, attrStr]

/-- Go struct `Meta` (attributes `name`, `content`). -/
structure Meta where
  name : String
  content : String

def Meta.zero : Meta := { name := "", content := "" }

def Meta.enc (x : Meta) : XmlNode :=
  .elem "meta" [("name", x.name), ("content", x.content)] []

def Meta.dec (cur : Meta) : XmlNode → Except String Meta
  | .elem n attrs _ =>
      if n = "meta" then
        .ok { name := attrStr "name" cur.name attrs,
              content := attrStr "content" cur.content attrs }
      else .error ("expected element type <meta> but have <" ++ n ++ ">")
  | .text _ => .error "expected element"

@[simp] theorem isNamed_Meta_enc (m : String) (x : Meta) :
    isNamed m (Meta.enc x) = ("meta" == m) := rfl

theorem Meta_rt (x : Meta) : Meta.dec Meta.zero (Meta.enc x) = .ok x := by
  obtain ⟨nm, ct⟩ := x
  simp [Meta.dec, Meta.enc, attrStr]

@[simp] theorem elemsNamed_map_Meta_enc (n : String) (l : List Meta) :
    elemsNamed n (l.map Meta.enc) = if "meta" == n then l.map Meta.enc else [] :=
  elemsNamed_map_isNamed n "meta" Meta.enc (fun _ _ => rfl) l

@[simp] theorem mapExcept_Meta (l : List Meta) :
    mapExcept (Meta.dec Meta.zero) (l.map Meta.enc) = .ok l :=
  mapExcept_enc Meta.dec Meta.zero Meta.enc Meta_rt l

/-- Go struct `Metadata` (part_000 lines 149–169), children in field order. -/
structure Metadata where
  title : String
  identifier : String
  publisher : String
  format : String
  date : String
  source : String
  type : List String
  subject : List String
  rights : List String
  relation : List String
  language : List String
  description : List String
  creator : List String
  coverage : List String
  contributor : List String
  narrator : List String
  size : Int
  meta : List Meta

def Metadata.zero : Metadata :=
  { title := "", identifier := "", publisher := "", format := "", date := "",
    source := "", type := [], subject := [], rights := [], relation := [],
    language := [], description := [], creator := [], coverage := [],
    contributor := [], narrator := [], size := 0, meta := [] }

def Metadata.enc (x : Metadata) : XmlNode :=
  .elem "metadata" []
    ([encStr "title" x.title, encStr "identifier" x.identifier,
      encStr "publisher" x.publisher, encStr "format" x.format,
      encStr "date" x.date, encStr "source" x.source]
     ++ x.type.map (encStr "type") ++ x.subject.map (encStr "subject")
     ++ x.rights.map (encStr "rights") ++ x.relation.map (encStr "relation")
     ++ x.language.map (encStr "language")
     ++ x.description.map (encStr "description")
     ++ x.creator.map (encStr "creator") ++ x.coverage.map (encStr "coverage")
     ++ x.contributor.map (encStr "contributor")
     ++ x.narrator.map (encStr "narrator")
     ++ [encInt "size" x.size] ++ x.meta.map Meta.enc)

def Metadata.dec (cur : Metadata) : XmlNode → Except String Metadata
  | .elem n _ children =>
      if n = "metadata" then do
        let sz ← childInt "size" cur.size children
        let mt ← childList Meta.dec Meta.zero "meta" cur.meta children
        .ok { title := childStr "title" cur.title children,
              identifier := childStr "identifier" cur.identifier children,
              publisher := childStr "publisher" cur.publisher children,
              format := childStr "format" cur.format children,
              date := childStr "date" cur.date children,
              source := childStr "source" cur.source children,
              type := childStrs "type" cur.type children,
              subject := childStrs "subject" cur.subject children,
              rights := childStrs "rights" cur.rights children,
              relation := childStrs "relation" cur.relation children,
              language := childStrs "language" cur.language children,
              description := childStrs "description" cur.description children,
              creator := childStrs "creator" cur.creator children,
              coverage := childStrs "coverage" cur.coverage children,
              contributor := childStrs "contributor" cur.contributor children,
              narrator := childStrs "narrator" cur.narrator children,
              size := sz, meta := mt }
      else .error ("expected element type <metadata> but have <" ++ n ++ ">")
  | .text _ => .error "expected element"

@[simp] theorem isNamed_Metadata_enc (m : String) (x : Metadata) :
    isNamed m (Metadata.enc x) = ("metadata" == m) := rfl

theorem Metadata_rt (x : Metadata) :
    Metadata.dec Metadata.zero (Metadata.enc x) = .ok x := by
  obtain ⟨t1, t2, t3, t4, t5, t6, l1, l2, l3, l4, l5, l6, l7, l8, l9, l10, sz, mt⟩ := x
  simp [Metadata.dec, Metadata.enc, Metadata.zero, childStrs, childStr,
    childInt, childList, lastElem, encStr, encInt, intParse_intPrint,
    Bind.bind, Except.bind, Except.map]

/-- Go struct `ContentMetadata` (attributes `category`, `requiresReturn`;
children `sample`, `metadata`). -/
structure ContentMetadata where
  category : String
  requiresReturn : Bool
  sample : Sample
  metadata : Metadata

def ContentMetadata.zero : ContentMetadata :=
  { category := "", requiresReturn := false, sample := Sample.zero,
    metadata := Metadata.zero }

def ContentMetadata.enc (x : ContentMetadata) : XmlNode :=
  .elem "contentMetadata"
    [("category", x.category), ("requiresReturn", boolStr x.requiresReturn)]
    [Sample.enc x.sample, Metadata.enc x.metadata]

def ContentMetadata.dec (cur : ContentMetadata) :
    XmlNode → Except String ContentMetadata
  | .elem n attrs children =>
      if n = "contentMetadata" then do
        let rr ← attrBool "requiresReturn" cur.requiresReturn attrs
        let sp ← childStruct Sample.dec "sample" cur.sample children
        let md ← childStruct Metadata.dec "metadata" cur.metadata children
        .ok { category := attrStr "category" cur.category attrs,
              requiresReturn := rr, sample := sp, metadata := md }
      else .error ("expected element type <contentMetadata> but have <" ++ n ++ ">")
  | .text _ => .error "expected element"

@[simp] theorem isNamed_ContentMetadata_enc (m : String) (x : ContentMetadata) :
    isNamed m (ContentMetadata.enc x) = ("contentMetadata" == m) := rfl

theorem ContentMetadata_rt (x : ContentMetadata) :
    ContentMetadata.dec ContentMetadata.zero (ContentMetadata.enc x) = .ok x := by
  obtain ⟨c, rr, sp, md⟩ := x
  simp [ContentMetadata.dec, ContentMetadata.enc, ContentMetadata.zero,
    childStruct, lastElem, attrStr, attrBool, parseBool_boolStr, Sample_rt,
    Metadata_rt, Bind.bind, Except.bind]

/-- Go struct `Resource` (five attributes). -/
structure Resource where
  uri : String
  mimeType : String
  size : Int
  localURI : String
  lastModifiedDate : String

def Resource.zero : Resource :=
  { uri := "", mimeType := "", size := 0, localURI := "", lastModifiedDate := "" }

def Resource.enc (x : Resource) : XmlNode :=
  .elem "resource"
    [("uri", x.uri), ("mimeType", x.mimeType), ("size", intPrint x.size),
     ("localURI", x.localURI), ("lastModifiedDate", x.lastModifiedDate)] []

def Resource.dec (cur : Resource) : XmlNode → Except String Resource
  | .elem n attrs _ =>
      if n = "resource" then do
        let sz ← attrInt "size" cur.size attrs
        .ok { uri := attrStr "uri" cur.uri attrs,
              mimeType := attrStr "mimeType" cur.mimeType attrs,
              size := sz,
              localURI := attrStr "localURI" cur.localURI attrs,
              lastModifiedDate :=
                attrStr "lastModifiedDate" cur.lastModifiedDate attrs }
      else .error ("expected element type <resource> but have <" ++ n ++ ">")
  | .text _ => .error "expected element"

@[simp] theorem isNamed_Resource_enc (m : String) (x : Resource) :
    isNamed m (Resource.enc x) = ("resource" == m) := rfl

theorem Resource_rt (x : Resource) :
    Resource.dec Resource.zero (Resource.enc x) = .ok x := by
  obtain ⟨u, mt, sz, lu, ld⟩ := x
  simp [Resource.dec, Resource.enc, attrStr, attrInt, intParse_intPrint,
    Bind.bind, Except.bind]

@[simp] theorem elemsNamed_map_Resource_enc (n : String) (l : List Resource) :
    elemsNamed n (l.map Resource.enc) =
      if "resource" == n then l.map Resource.enc else [] :=
  elemsNamed_map_isNamed n "resource" Resource.enc (fun _ _ => rfl) l

@[simp] theorem mapExcept_Resource (l : List Resource) :
    mapExcept (Resource.dec Resource.zero) (l.map Resource.enc) = .ok l :=
  mapExcept_enc Resource.dec Resource.zero Resource.enc Resource_rt l

/-- Go struct `Resources` (attributes `returnBy`, `lastModifiedDate`;
children `resource`). -/
structure Resources where
  returnBy : String
  lastModifiedDate : String
  resources : List Resource

def Resources.zero : Resources :=
  { returnBy := "", lastModifiedDate := "", resources := [] }

def Resources.enc (x : Resources) : XmlNode :=
  .elem "resources"
    [("returnBy", x.returnBy), ("lastModifiedDate", x.lastModifiedDate)]
    (x.resources.map Resource.enc)

def Resources.dec (cur : Resources) : XmlNode → Except String Resources
  | .elem n attrs children =>
      if n = "resources" then do
        let rs ← childList Resource.dec Resource.zero "resource"
          cur.resources children
        .ok { returnBy := attrStr "returnBy" cur.returnBy attrs,
              lastModifiedDate :=
                attrStr "lastModifiedDate" cur.lastModifiedDate attrs,
              resources := rs }
      else .error ("expected element type <resources> but have <" ++ n ++ ">")
  | .text _ => .error "expected element"

@[simp] theorem isNamed_Resources_enc (m : String) (x : Resources) :
    isNamed m (Resources.enc x) = ("resources" == m) := rfl

theorem Resources_rt (x : Resources) :
    Resources.dec Resources.zero (Resources.enc x) = .ok x := by
  obtain ⟨rb, ld, rs⟩ := x
  simp [Resources.dec, Resources.enc, Resources.zero, childList, attrStr,
    Bind.bind, Except.bind, Except.map]

/-- Go struct `UserResponse` (attribute `questionID`, attribute
`value,omitempty`, child `data,omitempty`). -/
structure UserResponse where
  questionID : String
  value : String
  data : String

def UserResponse.zero : UserResponse := { questionID := "", value := "", data := "" }

def UserResponse.enc (x : UserResponse) : XmlNode :=
  .elem "userResponse" ([("questionID", x.questionID)] ++ attrOpt "value" x.value)
    (encStrOpt "data" x.data)

def UserResponse.dec (cur : UserResponse) : XmlNode → Except String UserResponse
  | .elem n attrs children =>
      if n = "userResponse" then
        .ok { questionID := attrStr "questionID" cur.questionID attrs,
              value := attrStr "value" cur.value attrs,
              data := childStr "data" cur.data children }
      else .error ("expected element type <userResponse> but have <" ++ n ++ ">")
  | .text _ => .error "expected element"

@[simp] theorem isNamed_UserResponse_enc (m : String) (x : UserResponse) :
    isNamed m (UserResponse.enc x) = ("userResponse" == m) := rfl

theorem UserResponse_rt (x : UserResponse) :
    UserResponse.dec UserResponse.zero (UserResponse.enc x) = .ok x := by
  obtain ⟨q, v, d⟩ := x
  by_cases hv : v = "" <;> by_cases hd : d = "" <;>
    simp [UserResponse.dec, UserResponse.enc, UserResponse.zero, attrOpt,
      encStrOpt, attrStr, childStr, lastElem, encStr, hv, hd]

@[simp] theorem elemsNamed_map_UserResponse_enc (n : String)
    (l : List UserResponse) :
    elemsNamed n (l.map UserResponse.enc) =
      if "userResponse" == n then l.map UserResponse.enc else [] :=
  elemsNamed_map_isNamed n "userResponse" UserResponse.enc (fun _ _ => rfl) l

@[simp] theorem mapExcept_UserResponse (l : List UserResponse) :
    mapExcept (UserResponse.dec UserResponse.zero) (l.map UserResponse.enc) =
      .ok l :=
  mapExcept_enc UserResponse.dec UserResponse.zero UserResponse.enc
    UserResponse_rt l

/-- Go struct `UserResponses` (children `userResponse`). -/
structure UserResponses where
  userResponse : List UserResponse

def UserResponses.zero : UserResponses := { userResponse := [] }

def UserResponses.enc (x : UserResponses) : XmlNode :=
  .elem "userResponses" [] (x.userResponse.map UserResponse.enc)

def UserResponses.dec (cur : UserResponses) :
    XmlNode → Except String UserResponses
  | .elem n _ children =>
      if n = "userResponses" then do
        let l ← childList UserResponse.dec UserResponse.zero "userResponse"
          cur.userResponse children
        .ok { userResponse := l }
      else .error ("expected element type <userResponses> but have <" ++ n ++ ">")
  | .text _ => .error "expected element"

@[simp] theorem isNamed_UserResponses_enc (m : String) (x : UserResponses) :
    isNamed m (UserResponses.enc x) = ("userResponses" == m) := rfl

theorem UserResponses_rt (x : UserResponses) :
    UserResponses.dec UserResponses.zero (UserResponses.enc x) = .ok x := by
  obtain ⟨l⟩ := x
  simp [UserResponses.dec, UserResponses.enc, UserResponses.zero, childList,
    Bind.bind, Except.bind, Except.map]

/-- Go struct `Choice` (attribute `id`; child `label`). -/
structure Choice where
  id : String
  label : Label

def Choice.zero : Choice := { id := "", label := Label.zero }

def Choice.enc (x : Choice) : XmlNode :=
  .elem "choice" [("id", x.id)] [Label.enc x.label]

def Choice.dec (cur : Choice) : XmlNode → Except String Choice
  | .elem n attrs children =>
      if n = "choice" then do
        let l ← childStruct Label.dec "label" cur.label children
        .ok { id := attrStr "id" cur.id attrs, label := l }
      else .error ("expected element type <choice> but have <" ++ n ++ ">")
  | .text _ => .error "expected element"

@[simp] theorem isNamed_Choice_enc (m : String) (x : Choice) :
    isNamed m (Choice.enc x) = ("choice" == m) := rfl

theorem Choice_rt (x : Choice) : Choice.dec Choice.zero (Choice.enc x) = .ok x := by
  obtain ⟨i, l⟩ := x
  simp [Choice.dec, Choice.enc, Choice.zero, childStruct, lastElem, attrStr,
    Label_rt, Bind.bind, Except.bind]

@[simp] theorem elemsNamed_map_Choice_enc (n : String) (l : List Choice) :
    elemsNamed n (l.map Choice.enc) =
      if "choice" == n then l.map Choice.enc else [] :=
  elemsNamed_map_isNamed n "choice" Choice.enc (fun _ _ => rfl) l

@[simp] theorem mapExcept_Choice (l : List Choice) :
    mapExcept (Choice.dec Choice.zero) (l.map Choice.enc) = .ok l :=
  mapExcept_enc Choice.dec Choice.zero Choice.enc Choice_rt l

/-- Go struct `Choices` (children `choice`). -/
structure Choices where
  choice : List Choice

def Choices.zero : Choices := { choice := [] }

def Choices.enc (x : Choices) : XmlNode :=
  .elem "choices" [] (x.choice.map Choice.enc)

def Choices.dec (cur : Choices) : XmlNode → Except String Choices
  | .elem n _ children =>
      if n = "choices" then do
        let l ← childList Choice.dec Choice.zero "choice" cur.choice children
        .ok { choice := l }
      else .error ("expected element type <choices> but have <" ++ n ++ ">")
  | .text _ => .error "expected element"

@[simp] theorem isNamed_Choices_enc (m : String) (x : Choices) :
    isNamed m (Choices.enc x) = ("choices" == m) := rfl

theorem Choices_rt (x : Choices) :
    Choices.dec Choices.zero (Choices.enc x) = .ok x := by
  obtain ⟨l⟩ := x
  simp [Choices.dec, Choices.enc, Choices.zero, childList,
    Bind.bind, Except.bind, Except.map]

/-- Go struct `MultipleChoiceQuestion` (attributes `id`,
`allowMultipleSelections`; children `label`, `choices`). -/
structure MultipleChoiceQuestion where
  id : String
  allowMultipleSelections : Bool
  label : Label
  choices : Choices

def MultipleChoiceQuestion.zero : MultipleChoiceQuestion :=
  { id := "", allowMultipleSelections := false, label := Label.zero,
    choices := Choices.zero }

def MultipleChoiceQuestion.enc (x : MultipleChoiceQuestion) : XmlNode :=
  .elem "multipleChoiceQuestion"
    [("id", x.id), ("allowMultipleSelections", boolStr x.allowMultipleSelections)]
    [Label.enc x.label, Choices.enc x.choices]

def MultipleChoiceQuestion.dec (cur : MultipleChoiceQuestion) :
    XmlNode → Except String MultipleChoiceQuestion
  | .elem n attrs children =>
      if n = "multipleChoiceQuestion" then do
        let am ← attrBool "allowMultipleSelections"
          cur.allowMultipleSelections attrs
        let lb ← childStruct Label.dec "label" cur.label children
        let cs ← childStruct Choices.dec "choices" cur.choices children
        .ok { id := attrStr "id" cur.id attrs, allowMultipleSelections := am,
              label := lb, choices := cs }
      else .error ("expected element type <multipleChoiceQuestion> but have <"
        ++ n ++ ">")
  | .text _ => .error "expected element"

@[simp] theorem isNamed_MCQ_enc (m : String) (x : MultipleChoiceQuestion) :
    isNamed m (MultipleChoiceQuestion.enc x) = ("multipleChoiceQuestion" == m) := rfl

theorem MCQ_rt (x : MultipleChoiceQuestion) :
    MultipleChoiceQuestion.dec MultipleChoiceQuestion.zero
      (MultipleChoiceQuestion.enc x) = .ok x := by
  obtain ⟨i, am, lb, cs⟩ := x
  simp [MultipleChoiceQuestion.dec, MultipleChoiceQuestion.enc,
    MultipleChoiceQuestion.zero, childStruct, lastElem, attrStr, attrBool,
    parseBool_boolStr, Label_rt, Choices_rt, Bind.bind, Except.bind]

@[simp] theorem elemsNamed_map_MCQ_enc (n : String)
    (l : List MultipleChoiceQuestion) :
    elemsNamed n (l.map MultipleChoiceQuestion.enc) =
      if "multipleChoiceQuestion" == n then l.map MultipleChoiceQuestion.enc
      else [] :=
  elemsNamed_map_isNamed n "multipleChoiceQuestion" MultipleChoiceQuestion.enc
    (fun _ _ => rfl) l

@[simp] theorem mapExcept_MCQ (l : List MultipleChoiceQuestion) :
    mapExcept (MultipleChoiceQuestion.dec MultipleChoiceQuestion.zero)
      (l.map MultipleChoiceQuestion.enc) = .ok l :=
  mapExcept_enc MultipleChoiceQuestion.dec MultipleChoiceQuestion.zero
    MultipleChoiceQuestion.enc MCQ_rt l

/-- Go struct `InputTypes` (children `input`). -/
structure InputTypes where
  input : List Input

def InputTypes.zero : InputTypes := { input := [] }

def InputTypes.enc (x : InputTypes) : XmlNode :=
  .elem "inputTypes" [] (x.input.map Input.enc)

def InputTypes.dec (cur : InputTypes) : XmlNode → Except String InputTypes
  | .elem n _ children =>
      if n = "inputTypes" then do
        let l ← childList Input.dec Input.zero "input" cur.input children
        .ok { input := l }
      else .error ("expected element type <inputTypes> but have <" ++ n ++ ">")
  | .text _ => .error "expected element"

@[simp] theorem isNamed_InputTypes_enc (m : String) (x : InputTypes) :
    isNamed m (InputTypes.enc x) = ("inputTypes" == m) := rfl

theorem InputTypes_rt (x : InputTypes) :
    InputTypes.dec InputTypes.zero (InputTypes.enc x) = .ok x := by
  obtain ⟨l⟩ := x
  simp [InputTypes.dec, InputTypes.enc, InputTypes.zero, childList,
    Bind.bind, Except.bind, Except.map]

/-- Go struct `InputQuestion` (attribute `id`; children `inputTypes`,
`label`, in field order). -/
structure InputQuestion where
  id : String
  inputTypes : InputTypes
  label : Label

def InputQuestion.zero : InputQuestion :=
  { id := "", inputTypes := InputTypes.zero, label := Label.zero }

def InputQuestion.enc (x : InputQuestion) : XmlNode :=
  .elem "inputQuestion" [("id", x.id)]
    [InputTypes.enc x.inputTypes, Label.enc x.label]

def InputQuestion.dec (cur : InputQuestion) :
    XmlNode → Except String InputQuestion
  | .elem n attrs children =>
      if n = "inputQuestion" then do
        let it ← childStruct InputTypes.dec "inputTypes" cur.inputTypes children
        let lb ← childStruct Label.dec "label" cur.label children
        .ok { id := attrStr "id" cur.id attrs, inputTypes := it, label := lb }
      else .error ("expected element type <inputQuestion> but have <" ++ n ++ ">")
  | .text _ => .error "expected element"

@[simp] theorem isNamed_InputQuestion_enc (m : String) (x : InputQuestion) :
    isNamed m (InputQuestion.enc x) = ("inputQuestion" == m) := rfl

theorem InputQuestion_rt (x : InputQuestion) :
    InputQuestion.dec InputQuestion.zero (InputQuestion.enc x) = .ok x := by
  obtain ⟨i, it, lb⟩ := x
  simp [InputQuestion.dec, InputQuestion.enc, InputQuestion.zero, childStruct,
    lastElem, attrStr, InputTypes_rt, Label_rt, Bind.bind, Except.bind]

@[simp] theorem elemsNamed_map_InputQuestion_enc (n : String)
    (l : List InputQuestion) :
    elemsNamed n (l.map InputQuestion.enc) =
      if "inputQuestion" == n then l.map InputQuestion.enc else [] :=
  elemsNamed_map_isNamed n "inputQuestion" InputQuestion.enc (fun _ _ => rfl) l

@[simp] theorem mapExcept_InputQuestion (l : List InputQuestion) :
    mapExcept (InputQuestion.dec InputQuestion.zero)
      (l.map InputQuestion.enc) = .ok l :=
  mapExcept_enc InputQuestion.dec InputQuestion.zero InputQuestion.enc
    InputQuestion_rt l

/-- Go struct `Questions` (part_000 lines 213–219): the
`multipleChoiceQuestion` items, the `inputQuestion` items, `contentListRef`,
`label`, in field order. -/
structure Questions where
  multipleChoiceQuestion : List MultipleChoiceQuestion
  inputQuestion : List InputQuestion
  contentListRef : String
  label : Label

def Questions.zero : Questions :=
  { multipleChoiceQuestion := [], inputQuestion := [], contentListRef := "",
    label := Label.zero }

def Questions.enc (x : Questions) : XmlNode :=
  .elem "questions" []
    (x.multipleChoiceQuestion.map MultipleChoiceQuestion.enc
     ++ x.inputQuestion.map InputQuestion.enc
     ++ [encStr "contentListRef" x.contentListRef, Label.enc x.label])

def Questions.dec (cur : Questions) : XmlNode → Except String Questions
  | .elem n _ children =>
      if n = "questions" then do
        let mcq ← childList MultipleChoiceQuestion.dec
          MultipleChoiceQuestion.zero "multipleChoiceQuestion"
          cur.multipleChoiceQuestion children
        let iq ← childList InputQuestion.dec InputQuestion.zero "inputQuestion"
          cur.inputQuestion children
        let lb ← childStruct Label.dec "label" cur.label children
        .ok { multipleChoiceQuestion := mcq, inputQuestion := iq,
              contentListRef :=
                childStr "contentListRef" cur.contentListRef children,
              label := lb }
      else .error ("expected element type <questions> but have <" ++ n ++ ">")
  | .text _ => .error "expected element"

@[simp] theorem isNamed_Questions_enc (m : String) (x : Questions) :
    isNamed m (Questions.enc x) = ("questions" == m) := rfl

theorem Questions_rt (x : Questions) :
    Questions.dec Questions.zero (Questions.enc x) = .ok x := by
  obtain ⟨mcq, iq, clr, lb⟩ := x
  simp [Questions.dec, Questions.enc, Questions.zero, childList, childStruct,
    childStr, lastElem, encStr, Label_rt, Bind.bind, Except.bind, Except.map]

/-- Go struct `Announcement` (attributes `id`, `type`, `priority`; child
`label`). -/
structure Announcement where
  id : String
  type : String
  priority : Int
  label : Label

def Announcement.zero : Announcement :=
  { id := "", type := "", priority := 0, label := Label.zero }

def Announcement.enc (x : Announcement) : XmlNode :=
  .elem "announcement"
    [("id", x.id), ("type", x.type), ("priority", intPrint x.priority)]
    [Label.enc x.label]

def Announcement.dec (cur : Announcement) :
    XmlNode → Except String Announcement
  | .elem n attrs children =>
      if n = "announcement" then do
        let pr ← attrInt "priority" cur.priority attrs
        let lb ← childStruct Label.dec "label" cur.label children
        .ok { id := attrStr "id" cur.id attrs,
              type := attrStr "type" cur.type attrs,
              priority := pr, label := lb }
      else .error ("expected element type <announcement> but have <" ++ n ++ ">")
  | .text _ => .error "expected element"

@[simp] theorem isNamed_Announcement_enc (m : String) (x : Announcement) :
    isNamed m (Announcement.enc x) = ("announcement" == m) := rfl

theorem Announcement_rt (x : Announcement) :
    Announcement.dec Announcement.zero (Announcement.enc x) = .ok x := by
  obtain ⟨i, t, pr, lb⟩ := x
  simp [Announcement.dec, Announcement.enc, Announcement.zero, childStruct,
    lastElem, attrStr, attrInt, intParse_intPrint, Label_rt,
    Bind.bind, Except.bind]

@[simp] theorem elemsNamed_map_Announcement_enc (n : String)
    (l : List Announcement) :
    elemsNamed n (l.map Announcement.enc) =
      if "announcement" == n then l.map Announcement.enc else [] :=
  elemsNamed_map_isNamed n "announcement" Announcement.enc (fun _ _ => rfl) l

@[simp] theorem mapExcept_Announcement (l : List Announcement) :
    mapExcept (Announcement.dec Announcement.zero) (l.map Announcement.enc) =
      .ok l :=
  mapExcept_enc Announcement.dec Announcement.zero Announcement.enc
    Announcement_rt l

/-- Go struct `Announcements` (children `announcement`). -/
structure Announcements where
  announcement : List Announcement

def Announcements.zero : Announcements := { announcement := [] }

def Announcements.enc (x : Announcements) : XmlNode :=
  .elem "announcements" [] (x.announcement.map Announcement.enc)

def Announcements.dec (cur : Announcements) :
    XmlNode → Except String Announcements
  | .elem n _ children =>
      if n = "announcements" then do
        let l ← childList Announcement.dec Announcement.zero "announcement"
          cur.announcement children
        .ok { announcement := l }
      else .error ("expected element type <announcements> but have <" ++ n ++ ">")
  | .text _ => .error "expected element"

@[simp] theorem isNamed_Announcements_enc (m : String) (x : Announcements) :
    isNamed m (Announcements.enc x) = ("announcements" == m) := rfl

theorem Announcements_rt (x : Announcements) :
    Announcements.dec Announcements.zero (Announcements.enc x) = .ok x := by
  obtain ⟨l⟩ := x
  simp [Announcements.dec, Announcements.enc, Announcements.zero, childList,
    Bind.bind, Except.bind, Except.map]

/-- Go struct `Note` (bookmarks.go; child `text,omitempty`). -/
structure Note where
  text : String

def Note.zero : Note := { text := "" }

def Note.enc (x : Note) : XmlNode :=
  .elem "note" [] (encStrOpt "text" x.text)

def Note.dec (cur : Note) : XmlNode → Except String Note
  | .elem n _ children =>
      if n = "note" then
        .ok { text := childStr "text" cur.text children }
      else .error ("expected element type <note> but have <" ++ n ++ ">")
  | .text _ => .error "expected element"

@[simp] theorem isNamed_Note_enc (m : String) (x : Note) :
    isNamed m (Note.enc x) = ("note" == m) := rfl

theorem Note_rt (x : Note) : Note.dec Note.zero (Note.enc x) = .ok x := by
  obtain ⟨t⟩ := x
  by_cases ht : t = "" <;>
    simp [Note.dec, Note.enc, Note.zero, encStrOpt, childStr, lastElem,
      encStr, ht]

/-- Go struct `Title` (bookmarks.go; child `text`). -/
structure Title where
  text : String

def Title.zero : Title := { text := "" }

def Title.enc (x : Title) : XmlNode :=
  .elem "title" [] [encStr "text" x.text]

def Title.dec (cur : Title) : XmlNode → Except String Title
  | .elem n _ children =>
      if n = "title" then
        .ok { text := childStr "text" cur.text children }
      else .error ("expected element type <title> but have <" ++ n ++ ">")
  | .text _ => .error "expected element"

@[simp] theorem isNamed_Title_enc (m : String) (x : Title) :
    isNamed m (Title.enc x) = ("title" == m) := rfl

theorem Title_rt (x : Title) : Title.dec Title.zero (Title.enc x) = .ok x := by
  obtain ⟨t⟩ := x
  simp [Title.dec, Title.enc, childStr, lastElem, encStr]

/-- Go struct `Lastmark` (children `ncxRef`, `URI`, `timeOffset`,
`charOffset`). -/
structure Lastmark where
  ncxRef : String
  uri : String
  timeOffset : String
  charOffset : String

def Lastmark.zero : Lastmark :=
  { ncxRef := "", uri := "", timeOffset := "", charOffset := "" }

def Lastmark.enc (x : Lastmark) : XmlNode :=
  .elem "lastmark" []
    [encStr "ncxRef" x.ncxRef, encStr "URI" x.uri,
     encStr "timeOffset" x.timeOffset, encStr "charOffset" x.charOffset]

def Lastmark.dec (cur : Lastmark) : XmlNode → Except String Lastmark
  | .elem n _ children =>
      if n = "lastmark" then
        .ok { ncxRef := childStr "ncxRef" cur.ncxRef children,
              uri := childStr "URI" cur.uri children,
              timeOffset := childStr "timeOffset" cur.timeOffset children,
              charOffset := childStr "charOffset" cur.charOffset children }
      else .error ("expected element type <lastmark> but have <" ++ n ++ ">")
  | .text _ => .error "expected element"

@[simp] theorem isNamed_Lastmark_enc (m : String) (x : Lastmark) :
    isNamed m (Lastmark.enc x) = ("lastmark" == m) := rfl

theorem Lastmark_rt (x : Lastmark) :
    Lastmark.dec Lastmark.zero (Lastmark.enc x) = .ok x := by
  obtain ⟨a, b, c, d⟩ := x
  simp [Lastmark.dec, Lastmark.enc, childStr, lastElem, encStr]

/-- Go struct `Bookmark` (children `ncxRef`, `URI`, `timeOffset`,
`charOffset`, `note`; attributes `label`, `lang`). -/
structure Bookmark where
  ncxRef : String
  uri : String
  timeOffset : String
  charOffset : String
  note : Note
  label : String
  lang : String

def Bookmark.zero : Bookmark :=
  { ncxRef := "", uri := "", timeOffset := "", charOffset := "",
    note := Note.zero, label := "", lang := "" }

def Bookmark.enc (x : Bookmark) : XmlNode :=
  .elem "bookmark" [("label", x.label), ("lang", x.lang)]
    [encStr "ncxRef" x.ncxRef, encStr "URI" x.uri,
     encStr "timeOffset" x.timeOffset, encStr "charOffset" x.charOffset,
     Note.enc x.note]

def Bookmark.dec (cur : Bookmark) : XmlNode → Except String Bookmark
  | .elem n attrs children =>
      if n = "bookmark" then do
        let nt ← childStruct Note.dec "note" cur.note children
        .ok { ncxRef := childStr "ncxRef" cur.ncxRef children,
              uri := childStr "URI" cur.uri children,
              timeOffset := childStr "timeOffset" cur.timeOffset children,
              charOffset := childStr "charOffset" cur.charOffset children,
              note := nt,
              label := attrStr "label" cur.label attrs,
              lang := attrStr "lang" cur.lang attrs }
      else .error ("expected element type <bookmark> but have <" ++ n ++ ">")
  | .text _ => .error "expected element"

@[simp] theorem isNamed_Bookmark_enc (m : String) (x : Bookmark) :
    isNamed m (Bookmark.enc x) = ("bookmark" == m) := rfl

theorem Bookmark_rt (x : Bookmark) :
    Bookmark.dec Bookmark.zero (Bookmark.enc x) = .ok x := by
  obtain ⟨a, b, c, d, nt, lb, lg⟩ := x
  simp [Bookmark.dec, Bookmark.enc, Bookmark.zero, childStruct, childStr,
    lastElem, encStr, attrStr, Note_rt, Bind.bind, Except.bind]

@[simp] theorem elemsNamed_map_Bookmark_enc (n : String) (l : List Bookmark) :
    elemsNamed n (l.map Bookmark.enc) =
      if "bookmark" == n then l.map Bookmark.enc else [] :=
  elemsNamed_map_isNamed n "bookmark" Bookmark.enc (fun _ _ => rfl) l

@[simp] theorem mapExcept_Bookmark (l : List Bookmark) :
    mapExcept (Bookmark.dec Bookmark.zero) (l.map Bookmark.enc) = .ok l :=
  mapExcept_enc Bookmark.dec Bookmark.zero Bookmark.enc Bookmark_rt l

/-- Go struct `HiliteStart`. -/
structure HiliteStart where
  ncxRef : String
  uri : String
  timeOffset : String
  charOffset : String

def HiliteStart.zero : HiliteStart :=
  { ncxRef := "", uri := "", timeOffset := "", charOffset := "" }

def HiliteStart.enc (x : HiliteStart) : XmlNode :=
  .elem "hiliteStart" []
    [encStr "ncxRef" x.ncxRef, encStr "URI" x.uri,
     encStr "timeOffset" x.timeOffset, encStr "charOffset" x.charOffset]

def HiliteStart.dec (cur : HiliteStart) : XmlNode → Except String HiliteStart
  | .elem n _ children =>
      if n = "hiliteStart" then
        .ok { ncxRef := childStr "ncxRef" cur.ncxRef children,
              uri := childStr "URI" cur.uri children,
              timeOffset := childStr "timeOffset" cur.timeOffset children,
              charOffset := childStr "charOffset" cur.charOffset children }
      else .error ("expected element type <hiliteStart> but have <" ++ n ++ ">")
  | .text _ => .error "expected element"

@[simp] theorem isNamed_HiliteStart_enc (m : String) (x : HiliteStart) :
    isNamed m (HiliteStart.enc x) = ("hiliteStart" == m) := rfl

theorem HiliteStart_rt (x : HiliteStart) :
    HiliteStart.dec HiliteStart.zero (HiliteStart.enc x) = .ok x := by
  obtain ⟨a, b, c, d⟩ := x
  simp [HiliteStart.dec, HiliteStart.enc, childStr, lastElem, encStr]

/-- Go struct `HiliteEnd`. -/
structure HiliteEnd where
  ncxRef : String
  uri : String
  timeOffset : String
  charOffset : String

def HiliteEnd.zero : HiliteEnd :=
  { ncxRef := "", uri := "", timeOffset := "", charOffset := "" }

def HiliteEnd.enc (x : HiliteEnd) : XmlNode :=
  .elem "hiliteEnd" []
    [encStr "ncxRef" x.ncxRef, encStr "URI" x.uri,
     encStr "timeOffset" x.timeOffset, encStr "charOffset" x.charOffset]

def HiliteEnd.dec (cur : HiliteEnd) : XmlNode → Except String HiliteEnd
  | .elem n _ children =>
      if n = "hiliteEnd" then
        .ok { ncxRef := childStr "ncxRef" cur.ncxRef children,
              uri := childStr "URI" cur.uri children,
              timeOffset := childStr "timeOffset" cur.timeOffset children,
              charOffset := childStr "charOffset" cur.charOffset children }
      else .error ("expected element type <hiliteEnd> but have <" ++ n ++ ">")
  | .text _ => .error "expected element"

@[simp] theorem isNamed_HiliteEnd_enc (m : String) (x : HiliteEnd) :
    isNamed m (HiliteEnd.enc x) = ("hiliteEnd" == m) := rfl

theorem HiliteEnd_rt (x : HiliteEnd) :
    HiliteEnd.dec HiliteEnd.zero (HiliteEnd.enc x) = .ok x := by
  obtain ⟨a, b, c, d⟩ := x
  simp [HiliteEnd.dec, HiliteEnd.enc, childStr, lastElem, encStr]

/-- Go struct `Hilite` (children `hiliteStart`, `hiliteEnd`, `note`;
attribute `label`). -/
structure Hilite where
  hiliteStart : HiliteStart
  hiliteEnd : HiliteEnd
  note : Note
  label : String

def Hilite.zero : Hilite :=
  { hiliteStart := HiliteStart.zero, hiliteEnd := HiliteEnd.zero,
    note := Note.zero, label := "" }

def Hilite.enc (x : Hilite) : XmlNode :=
  .elem "hilite" [("label", x.label)]
    [HiliteStart.enc x.hiliteStart, HiliteEnd.enc x.hiliteEnd, Note.enc x.note]

def Hilite.dec (cur : Hilite) : XmlNode → Except String Hilite
  | .elem n attrs children =>
      if n = "hilite" then do
        let hs ← childStruct HiliteStart.dec "hiliteStart" cur.hiliteStart children
        let he ← childStruct HiliteEnd.dec "hiliteEnd" cur.hiliteEnd children
        let nt ← childStruct Note.dec "note" cur.note children
        .ok { hiliteStart := hs, hiliteEnd := he, note := nt,
              label := attrStr "label" cur.label attrs }
      else .error ("expected element type <hilite> but have <" ++ n ++ ">")
  | .text _ => .error "expected element"

@[simp] theorem isNamed_Hilite_enc (m : String) (x : Hilite) :
    isNamed m (Hilite.enc x) = ("hilite" == m) := rfl

theorem Hilite_rt (x : Hilite) : Hilite.dec Hilite.zero (Hilite.enc x) = .ok x := by
  obtain ⟨hs, he, nt, lb⟩ := x
  simp [Hilite.dec, Hilite.enc, Hilite.zero, childStruct, lastElem, attrStr,
    HiliteStart_rt, HiliteEnd_rt, Note_rt, Bind.bind, Except.bind]

@[simp] theorem elemsNamed_map_Hilite_enc (n : String) (l : List Hilite) :
    elemsNamed n (l.map Hilite.enc) =
      if "hilite" == n then l.map Hilite.enc else [] :=
  elemsNamed_map_isNamed n "hilite" Hilite.enc (fun _ _ => rfl) l

@[simp] theorem mapExcept_Hilite (l : List Hilite) :
    mapExcept (Hilite.dec Hilite.zero) (l.map Hilite.enc) = .ok l :=
  mapExcept_enc Hilite.dec Hilite.zero Hilite.enc Hilite_rt l

/-- Go struct `BookmarkSet` (bookmarks.go lines 18–25): children `title`,
`uid`, `lastmark`, then the `bookmark` and `hilite` items. -/
structure BookmarkSet where
  title : Title
  uid : String
  lastmark : Lastmark
  bookmark : List Bookmark
  hilite : List Hilite

def BookmarkSet.zero : BookmarkSet :=
  { title := Title.zero, uid := "", lastmark := Lastmark.zero,
    bookmark := [], hilite := [] }

def BookmarkSet.enc (x : BookmarkSet) : XmlNode :=
  .elem "bookmarkSet" []
    ([Title.enc x.title, encStr "uid" x.uid, Lastmark.enc x.lastmark]
     ++ x.bookmark.map Bookmark.enc ++ x.hilite.map Hilite.enc)

def BookmarkSet.dec (cur : BookmarkSet) : XmlNode → Except String BookmarkSet
  | .elem n _ children =>
      if n = "bookmarkSet" then do
        let tt ← childStruct Title.dec "title" cur.title children
        let lm ← childStruct Lastmark.dec "lastmark" cur.lastmark children
        let bks ← childList Bookmark.dec Bookmark.zero "bookmark"
          cur.bookmark children
        let hls ← childList Hilite.dec Hilite.zero "hilite" cur.hilite children
        .ok { title := tt, uid := childStr "uid" cur.uid children,
              lastmark := lm, bookmark := bks, hilite := hls }
      else .error ("expected element type <bookmarkSet> but have <" ++ n ++ ">")
  | .text _ => .error "expected element"

@[simp] theorem isNamed_BookmarkSet_enc (m : String) (x : BookmarkSet) :
    isNamed m (BookmarkSet.enc x) = ("bookmarkSet" == m) := rfl

theorem BookmarkSet_rt (x : BookmarkSet) :
    BookmarkSet.dec BookmarkSet.zero (BookmarkSet.enc x) = .ok x := by
  obtain ⟨tt, u, lm, bks, hls⟩ := x
  simp [BookmarkSet.dec, BookmarkSet.enc, BookmarkSet.zero, childStruct,
    childList, childStr, lastElem, encStr, Title_rt, Lastmark_rt,
    Bind.bind, Except.bind, Except.map]

/-- Modelled from the spec: the `Read` payload type used by
`markAnnouncementsAsRead` (part_000 lines 723–726) is not present under
`src/`; the spec treats the message schemas as externally defined payload
shapes.  It is modelled as the element `read` carrying the identifiers of the
announcements marked as read, one `item` child per identifier. -/
structure Read where
  item : List String

def Read.zero : Read := { item := [] }

def Read.enc (x : Read) : XmlNode :=
  .elem "read" [] (x.item.map (encStr "item"))

def Read.dec (cur : Read) : XmlNode → Except String Read
  | .elem n _ children =>
      if n = "read" then
        .ok { item := childStrs "item" cur.item children }
      else .error ("expected element type <read> but have <" ++ n ++ ">")
  | .text _ => .error "expected element"

@[simp] theorem isNamed_Read_enc (m : String) (x : Read) :
    isNamed m (Read.enc x) = ("read" == m) := rfl

theorem Read_rt (x : Read) : Read.dec Read.zero (Read.enc x) = .ok x := by
  obtain ⟨l⟩ := x
  simp [Read.dec, Read.enc, Read.zero, childStrs]

/-! ## Operation payload shapes (part_000 lines 427–731)

One request and one response shape per operation, named as in the source.
The daisy-online namespace on their `XMLName` tags is a fixed constant,
represented by the local names. -/

/-- Request `logOn` (children `username`, `password`). -/
structure logOn where
  username : String
  password : String

def logOn.zero : logOn := { username := "", password := "" }

def logOn.enc (x : logOn) : XmlNode :=
  .elem "logOn" [] [encStr "username" x.username, encStr "password" x.password]

def logOn.dec (cur : logOn) : XmlNode → Except String logOn
  | .elem n _ children =>
      if n = "logOn" then
        .ok { username := childStr "username" cur.username children,
              password := childStr "password" cur.password children }
      else .error ("expected element type <logOn> but have <" ++ n ++ ">")
  | .text _ => .error "expected element"

theorem logOn_rt (x : logOn) : logOn.dec logOn.zero (logOn.enc x) = .ok x := by
  obtain ⟨u, p⟩ := x
  simp [logOn.dec, logOn.enc, childStr, lastElem, encStr]

/-- Response `logOnResponse` (child `logOnResult`). -/
structure logOnResponse where
  logOnResult : Bool

def logOnResponse.zero : logOnResponse := { logOnResult := false }

def logOnResponse.enc (x : logOnResponse) : XmlNode :=
  .elem "logOnResponse" [] [encBool "logOnResult" x.logOnResult]

def logOnResponse.dec (cur : logOnResponse) :
    XmlNode → Except String logOnResponse
  | .elem n _ children =>
      if n = "logOnResponse" then do
        let b ← childBool "logOnResult" cur.logOnResult children
        .ok { logOnResult := b }
      else .error ("expected element type <logOnResponse> but have <" ++ n ++ ">")
  | .text _ => .error "expected element"

theorem logOnResponse_rt (x : logOnResponse) :
    logOnResponse.dec logOnResponse.zero (logOnResponse.enc x) = .ok x := by
  obtain ⟨b⟩ := x
  simp [logOnResponse.dec, logOnResponse.enc, childBool, lastElem, encBool,
    parseBool_boolStr, Bind.bind, Except.bind]

/-- Request `logOff` (no fields). -/
structure logOff where

def logOff.zero : logOff := {}

def logOff.enc (_ : logOff) : XmlNode := .elem "logOff" [] []

def logOff.dec (cur : logOff) : XmlNode → Except String logOff
  | .elem n _ _ =>
      if n = "logOff" then .ok cur
      else .error ("expected element type <logOff> but have <" ++ n ++ ">")
  | .text _ => .error "expected element"

theorem logOff_rt (x : logOff) : logOff.dec logOff.zero (logOff.enc x) = .ok x := by
  cases x; rfl

/-- Response `logOffResponse` (child `logOffResult`). -/
structure logOffResponse where
  logOffResult : Bool

def logOffResponse.zero : logOffResponse := { logOffResult := false }

def logOffResponse.enc (x : logOffResponse) : XmlNode :=
  .elem "logOffResponse" [] [encBool "logOffResult" x.logOffResult]

def logOffResponse.dec (cur : logOffResponse) :
    XmlNode → Except String logOffResponse
  | .elem n _ children =>
      if n = "logOffResponse" then do
        let b ← childBool "logOffResult" cur.logOffResult children
        .ok { logOffResult := b }
      else .error ("expected element type <logOffResponse> but have <" ++ n ++ ">")
  | .text _ => .error "expected element"

theorem logOffResponse_rt (x : logOffResponse) :
    logOffResponse.dec logOffResponse.zero (logOffResponse.enc x) = .ok x := by
  obtain ⟨b⟩ := x
  simp [logOffResponse.dec, logOffResponse.enc, childBool, lastElem, encBool,
    parseBool_boolStr, Bind.bind, Except.bind]

/-- Request `getServiceAttributes` (no fields). -/
structure getServiceAttributes where

def getServiceAttributes.zero : getServiceAttributes := {}

def getServiceAttributes.enc (_ : getServiceAttributes) : XmlNode :=
  .elem "getServiceAttributes" [] []

def getServiceAttributes.dec (cur : getServiceAttributes) :
    XmlNode → Except String getServiceAttributes
  | .elem n _ _ =>
      if n = "getServiceAttributes" then .ok cur
      else .error ("expected element type <getServiceAttributes> but have <" ++ n ++ ">")
  | .text _ => .error "expected element"

theorem getServiceAttributes_rt (x : getServiceAttributes) :
    getServiceAttributes.dec getServiceAttributes.zero
      (getServiceAttributes.enc x) = .ok x := by
  cases x; rfl

/-- Response `getServiceAttributesResponse` (child `serviceAttributes`). -/
structure getServiceAttributesResponse where
  serviceAttributes : ServiceAttributes

def getServiceAttributesResponse.zero : getServiceAttributesResponse :=
  { serviceAttributes := ServiceAttributes.zero }

def getServiceAttributesResponse.enc (x : getServiceAttributesResponse) : XmlNode :=
  .elem "getServiceAttributesResponse" []
    [ServiceAttributes.enc x.serviceAttributes]

def getServiceAttributesResponse.dec (cur : getServiceAttributesResponse) :
    XmlNode → Except String getServiceAttributesResponse
  | .elem n _ children =>
      if n = "getServiceAttributesResponse" then do
        let sa ← childStruct ServiceAttributes.dec "serviceAttributes"
          cur.serviceAttributes children
        .ok { serviceAttributes := sa }
      else .error ("expected element type <getServiceAttributesResponse> but have <"
        ++ n ++ ">")
  | .text _ => .error "expected element"

theorem getServiceAttributesResponse_rt (x : getServiceAttributesResponse) :
    getServiceAttributesResponse.dec getServiceAttributesResponse.zero
      (getServiceAttributesResponse.enc x) = .ok x := by
  obtain ⟨sa⟩ := x
  simp [getServiceAttributesResponse.dec, getServiceAttributesResponse.enc,
    getServiceAttributesResponse.zero, childStruct, lastElem,
    ServiceAttributes_rt, Bind.bind, Except.bind]

/-- Request `setReadingSystemAttributes` (pointer child
`readingSystemAttributes`). -/
structure setReadingSystemAttributes where
  readingSystemAttributes : Option ReadingSystemAttributes

def setReadingSystemAttributes.zero : setReadingSystemAttributes :=
  { readingSystemAttributes := none }

def setReadingSystemAttributes.enc (x : setReadingSystemAttributes) : XmlNode :=
  .elem "setReadingSystemAttributes" []
    (encOpt ReadingSystemAttributes.enc x.readingSystemAttributes)

def setReadingSystemAttributes.dec (cur : setReadingSystemAttributes) :
    XmlNode → Except String setReadingSystemAttributes
  | .elem n _ children =>
      if n = "setReadingSystemAttributes" then do
        let r ← childOpt ReadingSystemAttributes.dec ReadingSystemAttributes.zero
          "readingSystemAttributes" cur.readingSystemAttributes children
        .ok { readingSystemAttributes := r }
      else .error ("expected element type <setReadingSystemAttributes> but have <"
        ++ n ++ ">")
  | .text _ => .error "expected element"

theorem setReadingSystemAttributes_rt (x : setReadingSystemAttributes) :
    setReadingSystemAttributes.dec setReadingSystemAttributes.zero
      (setReadingSystemAttributes.enc x) = .ok x := by
  obtain ⟨r⟩ := x
  cases r <;>
    simp [setReadingSystemAttributes.dec, setReadingSystemAttributes.enc,
      setReadingSystemAttributes.zero, encOpt, childOpt, lastElem, RSA_rt,
      Bind.bind, Except.bind, Except.map]

/-- Response `setReadingSystemAttributesResponse`. -/
structure setReadingSystemAttributesResponse where
  setReadingSystemAttributesResult : Bool

def setReadingSystemAttributesResponse.zero : setReadingSystemAttributesResponse :=
  { setReadingSystemAttributesResult := false }

def setReadingSystemAttributesResponse.enc
    (x : setReadingSystemAttributesResponse) : XmlNode :=
  .elem "setReadingSystemAttributesResponse" []
    [encBool "setReadingSystemAttributesResult" x.setReadingSystemAttributesResult]

def setReadingSystemAttributesResponse.dec
    (cur : setReadingSystemAttributesResponse) :
    XmlNode → Except String setReadingSystemAttributesResponse
  | .elem n _ children =>
      if n = "setReadingSystemAttributesResponse" then do
        let b ← childBool "setReadingSystemAttributesResult"
          cur.setReadingSystemAttributesResult children
        .ok { setReadingSystemAttributesResult := b }
      else .error ("expected element type <setReadingSystemAttributesResponse> but have <"
        ++ n ++ ">")
  | .text _ => .error "expected element"

theorem setReadingSystemAttributesResponse_rt
    (x : setReadingSystemAttributesResponse) :
    setReadingSystemAttributesResponse.dec setReadingSystemAttributesResponse.zero
      (setReadingSystemAttributesResponse.enc x) = .ok x := by
  obtain ⟨b⟩ := x
  simp [setReadingSystemAttributesResponse.dec,
    setReadingSystemAttributesResponse.enc, childBool, lastElem, encBool,
    parseBool_boolStr, Bind.bind, Except.bind]

/-- Request `getContentList` (children `id`, `firstItem`, `lastItem`). -/
structure getContentList where
  id : String
  firstItem : Int
  lastItem : Int

def getContentList.zero : getContentList :=
  { id := "", firstItem := 0, lastItem := 0 }

def getContentList.enc (x : getContentList) : XmlNode :=
  .elem "getContentList" []
    [encStr "id" x.id, encInt "firstItem" x.firstItem,
     encInt "lastItem" x.lastItem]

def getContentList.dec (cur : getContentList) :
    XmlNode → Except String getContentList
  | .elem n _ children =>
      if n = "getContentList" then do
        let fi ← childInt "firstItem" cur.firstItem children
        let li ← childInt "lastItem" cur.lastItem children
        .ok { id := childStr "id" cur.id children, firstItem := fi, lastItem := li }
      else .error ("expected element type <getContentList> but have <" ++ n ++ ">")
  | .text _ => .error "expected element"

theorem getContentList_rt (x : getContentList) :
    getContentList.dec getContentList.zero (getContentList.enc x) = .ok x := by
  obtain ⟨i, fi, li⟩ := x
  simp [getContentList.dec, getContentList.enc, childStr, childInt, lastElem,
    encStr, encInt, intParse_intPrint, Bind.bind, Except.bind]

/-- Response `getContentListResponse` (child `contentList`). -/
structure getContentListResponse where
  contentList : ContentList

def getContentListResponse.zero : getContentListResponse :=
  { contentList := ContentList.zero }

def getContentListResponse.enc (x : getContentListResponse) : XmlNode :=
  .elem "getContentListResponse" [] [ContentList.enc x.contentList]

def getContentListResponse.dec (cur : getContentListResponse) :
    XmlNode → Except String getContentListResponse
  | .elem n _ children =>
      if n = "getContentListResponse" then do
        let cl ← childStruct ContentList.dec "contentList" cur.contentList children
        .ok { contentList := cl }
      else .error ("expected element type <getContentListResponse> but have <"
        ++ n ++ ">")
  | .text _ => .error "expected element"

theorem getContentListResponse_rt (x : getContentListResponse) :
    getContentListResponse.dec getContentListResponse.zero
      (getContentListResponse.enc x) = .ok x := by
  obtain ⟨cl⟩ := x
  simp [getContentListResponse.dec, getContentListResponse.enc,
    getContentListResponse.zero, childStruct, lastElem, ContentList_rt,
    Bind.bind, Except.bind]

/-- Request `getContentMetadata` (child `contentID`). -/
structure getContentMetadata where
  contentID : String

def getContentMetadata.zero : getContentMetadata := { contentID := "" }

def getContentMetadata.enc (x : getContentMetadata) : XmlNode :=
  .elem "getContentMetadata" [] [encStr "contentID" x.contentID]

def getContentMetadata.dec (cur : getContentMetadata) :
    XmlNode → Except String getContentMetadata
  | .elem n _ children =>
      if n = "getContentMetadata" then
        .ok { contentID := childStr "contentID" cur.contentID children }
      else .error ("expected element type <getContentMetadata> but have <" ++ n ++ ">")
  | .text _ => .error "expected element"

theorem getContentMetadata_rt (x : getContentMetadata) :
    getContentMetadata.dec getContentMetadata.zero (getContentMetadata.enc x) =
      .ok x := by
  obtain ⟨c⟩ := x
  simp [getContentMetadata.dec, getContentMetadata.enc, childStr, lastElem, encStr]

/-- Response `getContentMetadataResponse` (child `contentMetadata`). -/
structure getContentMetadataResponse where
  contentMetadata : ContentMetadata

def getContentMetadataResponse.zero : getContentMetadataResponse :=
  { contentMetadata := ContentMetadata.zero }

def getContentMetadataResponse.enc (x : getContentMetadataResponse) : XmlNode :=
  .elem "getContentMetadataResponse" [] [ContentMetadata.enc x.contentMetadata]

def getContentMetadataResponse.dec (cur : getContentMetadataResponse) :
    XmlNode → Except String getContentMetadataResponse
  | .elem n _ children =>
      if n = "getContentMetadataResponse" then do
        let cm ← childStruct ContentMetadata.dec "contentMetadata"
          cur.contentMetadata children
        .ok { contentMetadata := cm }
      else .error ("expected element type <getContentMetadataResponse> but have <"
        ++ n ++ ">")
  | .text _ => .error "expected element"

theorem getContentMetadataResponse_rt (x : getContentMetadataResponse) :
    getContentMetadataResponse.dec getContentMetadataResponse.zero
      (getContentMetadataResponse.enc x) = .ok x := by
  obtain ⟨cm⟩ := x
  simp [getContentMetadataResponse.dec, getContentMetadataResponse.enc,
    getContentMetadataResponse.zero, childStruct, lastElem, ContentMetadata_rt,
    Bind.bind, Except.bind]

/-- Request `getContentResources` (child `contentID`). -/
structure getContentResources where
  contentID : String

def getContentResources.zero : getContentResources := { contentID := "" }

def getContentResources.enc (x : getContentResources) : XmlNode :=
  .elem "getContentResources" [] [encStr "contentID" x.contentID]

def getContentResources.dec (cur : getContentResources) :
    XmlNode → Except String getContentResources
  | .elem n _ children =>
      if n = "getContentResources" then
        .ok { contentID := childStr "contentID" cur.contentID children }
      else .error ("expected element type <getContentResources> but have <" ++ n ++ ">")
  | .text _ => .error "expected element"

theorem getContentResources_rt (x : getContentResources) :
    getContentResources.dec getContentResources.zero
      (getContentResources.enc x) = .ok x := by
  obtain ⟨c⟩ := x
  simp [getContentResources.dec, getContentResources.enc, childStr, lastElem, encStr]

/-- Response `getContentResourcesResponse` (child `resources`). -/
structure getContentResourcesResponse where
  resources : Resources

def getContentResourcesResponse.zero : getContentResourcesResponse :=
  { resources := Resources.zero }

def getContentResourcesResponse.enc (x : getContentResourcesResponse) : XmlNode :=
  .elem "getContentResourcesResponse" [] [Resources.enc x.resources]

def getContentResourcesResponse.dec (cur : getContentResourcesResponse) :
    XmlNode → Except String getContentResourcesResponse
  | .elem n _ children =>
      if n = "getContentResourcesResponse" then do
        let rs ← childStruct Resources.dec "resources" cur.resources children
        .ok { resources := rs }
      else .error ("expected element type <getContentResourcesResponse> but have <"
        ++ n ++ ">")
  | .text _ => .error "expected element"

theorem getContentResourcesResponse_rt (x : getContentResourcesResponse) :
    getContentResourcesResponse.dec getContentResourcesResponse.zero
      (getContentResourcesResponse.enc x) = .ok x := by
  obtain ⟨rs⟩ := x
  simp [getContentResourcesResponse.dec, getContentResourcesResponse.enc,
    getContentResourcesResponse.zero, childStruct, lastElem, Resources_rt,
    Bind.bind, Except.bind]

/-- Request `issueContent` (child `contentID`). -/
structure issueContent where
  contentID : String

def issueContent.zero : issueContent := { contentID := "" }

def issueContent.enc (x : issueContent) : XmlNode :=
  .elem "issueContent" [] [encStr "contentID" x.contentID]

def issueContent.dec (cur : issueContent) : XmlNode → Except String issueContent
  | .elem n _ children =>
      if n = "issueContent" then
        .ok { contentID := childStr "contentID" cur.contentID children }
      else .error ("expected element type <issueContent> but have <" ++ n ++ ">")
  | .text _ => .error "expected element"

theorem issueContent_rt (x : issueContent) :
    issueContent.dec issueContent.zero (issueContent.enc x) = .ok x := by
  obtain ⟨c⟩ := x
  simp [issueContent.dec, issueContent.enc, childStr, lastElem, encStr]

/-- Response `issueContentResponse` (child `issueContentResult`). -/
structure issueContentResponse where
  issueContentResult : Bool

def issueContentResponse.zero : issueContentResponse :=
  { issueContentResult := false }

def issueContentResponse.enc (x : issueContentResponse) : XmlNode :=
  .elem "issueContentResponse" [] [encBool "issueContentResult" x.issueContentResult]

def issueContentResponse.dec (cur : issueContentResponse) :
    XmlNode → Except String issueContentResponse
  | .elem n _ children =>
      if n = "issueContentResponse" then do
        let b ← childBool "issueContentResult" cur.issueContentResult children
        .ok { issueContentResult := b }
      else .error ("expected element type <issueContentResponse> but have <" ++ n ++ ">")
  | .text _ => .error "expected element"

theorem issueContentResponse_rt (x : issueContentResponse) :
    issueContentResponse.dec issueContentResponse.zero
      (issueContentResponse.enc x) = .ok x := by
  obtain ⟨b⟩ := x
  simp [issueContentResponse.dec, issueContentResponse.enc, childBool,
    lastElem, encBool, parseBool_boolStr, Bind.bind, Except.bind]

/-- Request `returnContent` (child `contentID`). -/
structure returnContent where
  contentID : String

def returnContent.zero : returnContent := { contentID := "" }

def returnContent.enc (x : returnContent) : XmlNode :=
  .elem "returnContent" [] [encStr "contentID" x.contentID]

def returnContent.dec (cur : returnContent) : XmlNode → Except String returnContent
  | .elem n _ children =>
      if n = "returnContent" then
        .ok { contentID := childStr "contentID" cur.contentID children }
      else .error ("expected element type <returnContent> but have <" ++ n ++ ">")
  | .text _ => .error "expected element"

theorem returnContent_rt (x : returnContent) :
    returnContent.dec returnContent.zero (returnContent.enc x) = .ok x := by
  obtain ⟨c⟩ := x
  simp [returnContent.dec, returnContent.enc, childStr, lastElem, encStr]

/-- Response `returnContentResponse` (child `returnContentResult`). -/
structure returnContentResponse where
  returnContentResult : Bool

def returnContentResponse.zero : returnContentResponse :=
  { returnContentResult := false }

def returnContentResponse.enc (x : returnContentResponse) : XmlNode :=
  .elem "returnContentResponse" []
    [encBool "returnContentResult" x.returnContentResult]

def returnContentResponse.dec (cur : returnContentResponse) :
    XmlNode → Except String returnContentResponse
  | .elem n _ children =>
      if n = "returnContentResponse" then do
        let b ← childBool "returnContentResult" cur.returnContentResult children
        .ok { returnContentResult := b }
      else .error ("expected element type <returnContentResponse> but have <"
        ++ n ++ ">")
  | .text _ => .error "expected element"

theorem returnContentResponse_rt (x : returnContentResponse) :
    returnContentResponse.dec returnContentResponse.zero
      (returnContentResponse.enc x) = .ok x := by
  obtain ⟨b⟩ := x
  simp [returnContentResponse.dec, returnContentResponse.enc, childBool,
    lastElem, encBool, parseBool_boolStr, Bind.bind, Except.bind]

/-- Request `getQuestions` (pointer child `userResponses`). -/
structure getQuestions where
  userResponses : Option UserResponses

def getQuestions.zero : getQuestions := { userResponses := none }

def getQuestions.enc (x : getQuestions) : XmlNode :=
  .elem "getQuestions" [] (encOpt UserResponses.enc x.userResponses)

def getQuestions.dec (cur : getQuestions) : XmlNode → Except String getQuestions
  | .elem n _ children =>
      if n = "getQuestions" then do
        let u ← childOpt UserResponses.dec UserResponses.zero "userResponses"
          cur.userResponses children
        .ok { userResponses := u }
      else .error ("expected element type <getQuestions> but have <" ++ n ++ ">")
  | .text _ => .error "expected element"

theorem getQuestions_rt (x : getQuestions) :
    getQuestions.dec getQuestions.zero (getQuestions.enc x) = .ok x := by
  obtain ⟨u⟩ := x
  cases u <;>
    simp [getQuestions.dec, getQuestions.enc, getQuestions.zero, encOpt,
      childOpt, lastElem, UserResponses_rt, Bind.bind, Except.bind, Except.map]

/-- Response `getQuestionsResponse` (child `questions`). -/
structure getQuestionsResponse where
  questions : Questions

def getQuestionsResponse.zero : getQuestionsResponse :=
  { questions := Questions.zero }

def getQuestionsResponse.enc (x : getQuestionsResponse) : XmlNode :=
  .elem "getQuestionsResponse" [] [Questions.enc x.questions]

def getQuestionsResponse.dec (cur : getQuestionsResponse) :
    XmlNode → Except String getQuestionsResponse
  | .elem n _ children =>
      if n = "getQuestionsResponse" then do
        let q ← childStruct Questions.dec "questions" cur.questions children
        .ok { questions := q }
      else .error ("expected element type <getQuestionsResponse> but have <"
        ++ n ++ ">")
  | .text _ => .error "expected element"

theorem getQuestionsResponse_rt (x : getQuestionsResponse) :
    getQuestionsResponse.dec getQuestionsResponse.zero
      (getQuestionsResponse.enc x) = .ok x := by
  obtain ⟨q⟩ := x
  simp [getQuestionsResponse.dec, getQuestionsResponse.enc,
    getQuestionsResponse.zero, childStruct, lastElem, Questions_rt,
    Bind.bind, Except.bind]

/-- Request `getServiceAnnouncements` (no fields). -/
structure getServiceAnnouncements where

def getServiceAnnouncements.zero : getServiceAnnouncements := {}

def getServiceAnnouncements.enc (_ : getServiceAnnouncements) : XmlNode :=
  .elem "getServiceAnnouncements" [] []

def getServiceAnnouncements.dec (cur : getServiceAnnouncements) :
    XmlNode → Except String getServiceAnnouncements
  | .elem n _ _ =>
      if n = "getServiceAnnouncements" then .ok cur
      else .error ("expected element type <getServiceAnnouncements> but have <"
        ++ n ++ ">")
  | .text _ => .error "expected element"

theorem getServiceAnnouncements_rt (x : getServiceAnnouncements) :
    getServiceAnnouncements.dec getServiceAnnouncements.zero
      (getServiceAnnouncements.enc x) = .ok x := by
  cases x; rfl

/-- Response `getServiceAnnouncementsResponse` (child `announcements`). -/
structure getServiceAnnouncementsResponse where
  announcements : Announcements

def getServiceAnnouncementsResponse.zero : getServiceAnnouncementsResponse :=
  { announcements := Announcements.zero }

def getServiceAnnouncementsResponse.enc
    (x : getServiceAnnouncementsResponse) : XmlNode :=
  .elem "getServiceAnnouncementsResponse" [] [Announcements.enc x.announcements]

def getServiceAnnouncementsResponse.dec (cur : getServiceAnnouncementsResponse) :
    XmlNode → Except String getServiceAnnouncementsResponse
  | .elem n _ children =>
      if n = "getServiceAnnouncementsResponse" then do
        let a ← childStruct Announcements.dec "announcements"
          cur.announcements children
        .ok { announcements := a }
      else .error ("expected element type <getServiceAnnouncementsResponse> but have <"
        ++ n ++ ">")
  | .text _ => .error "expected element"

theorem getServiceAnnouncementsResponse_rt (x : getServiceAnnouncementsResponse) :
    getServiceAnnouncementsResponse.dec getServiceAnnouncementsResponse.zero
      (getServiceAnnouncementsResponse.enc x) = .ok x := by
  obtain ⟨a⟩ := x
  simp [getServiceAnnouncementsResponse.dec, getServiceAnnouncementsResponse.enc,
    getServiceAnnouncementsResponse.zero, childStruct, lastElem,
    Announcements_rt, Bind.bind, Except.bind]

/-- Request `setBookmarks` (child `contentID`, pointer child `bookmarkSet`). -/
structure setBookmarks where
  contentID : String
  bookmarkSet : Option BookmarkSet

def setBookmarks.zero : setBookmarks := { contentID := "", bookmarkSet := none }

def setBookmarks.enc (x : setBookmarks) : XmlNode :=
  .elem "setBookmarks" []
    (encStr "contentID" x.contentID :: encOpt BookmarkSet.enc x.bookmarkSet)

def setBookmarks.dec (cur : setBookmarks) : XmlNode → Except String setBookmarks
  | .elem n _ children =>
      if n = "setBookmarks" then do
        let bs ← childOpt BookmarkSet.dec BookmarkSet.zero "bookmarkSet"
          cur.bookmarkSet children
        .ok { contentID := childStr "contentID" cur.contentID children,
              bookmarkSet := bs }
      else .error ("expected element type <setBookmarks> but have <" ++ n ++ ">")
  | .text _ => .error "expected element"

theorem setBookmarks_rt (x : setBookmarks) :
    setBookmarks.dec setBookmarks.zero (setBookmarks.enc x) = .ok x := by
  obtain ⟨c, bs⟩ := x
  cases bs <;>
    simp [setBookmarks.dec, setBookmarks.enc, setBookmarks.zero, encOpt,
      childOpt, childStr, lastElem, encStr, BookmarkSet_rt,
      Bind.bind, Except.bind, Except.map]

/-- Response `setBookmarksResponse` (child `setBookmarksResult`). -/
structure setBookmarksResponse where
  setBookmarksResult : Bool

def setBookmarksResponse.zero : setBookmarksResponse :=
  { setBookmarksResult := false }

def setBookmarksResponse.enc (x : setBookmarksResponse) : XmlNode :=
  .elem "setBookmarksResponse" [] [encBool "setBookmarksResult" x.setBookmarksResult]

def setBookmarksResponse.dec (cur : setBookmarksResponse) :
    XmlNode → Except String setBookmarksResponse
  | .elem n _ children =>
      if n = "setBookmarksResponse" then do
        let b ← childBool "setBookmarksResult" cur.setBookmarksResult children
        .ok { setBookmarksResult := b }
      else .error ("expected element type <setBookmarksResponse> but have <"
        ++ n ++ ">")
  | .text _ => .error "expected element"

theorem setBookmarksResponse_rt (x : setBookmarksResponse) :
    setBookmarksResponse.dec setBookmarksResponse.zero
      (setBookmarksResponse.enc x) = .ok x := by
  obtain ⟨b⟩ := x
  simp [setBookmarksResponse.dec, setBookmarksResponse.enc, childBool,
    lastElem, encBool, parseBool_boolStr, Bind.bind, Except.bind]

/-- Request `getBookmarks` (child `contentID`). -/
structure getBookmarks where
  contentID : String

def getBookmarks.zero : getBookmarks := { contentID := "" }

def getBookmarks.enc (x : getBookmarks) : XmlNode :=
  .elem "getBookmarks" [] [encStr "contentID" x.contentID]

def getBookmarks.dec (cur : getBookmarks) : XmlNode → Except String getBookmarks
  | .elem n _ children =>
      if n = "getBookmarks" then
        .ok { contentID := childStr "contentID" cur.contentID children }
      else .error ("expected element type <getBookmarks> but have <" ++ n ++ ">")
  | .text _ => .error "expected element"

theorem getBookmarks_rt (x : getBookmarks) :
    getBookmarks.dec getBookmarks.zero (getBookmarks.enc x) = .ok x := by
  obtain ⟨c⟩ := x
  simp [getBookmarks.dec, getBookmarks.enc, childStr, lastElem, encStr]

/-- Response `getBookmarksResponse` (child `bookmarkSet`). -/
structure getBookmarksResponse where
  bookmarkSet : BookmarkSet

def getBookmarksResponse.zero : getBookmarksResponse :=
  { bookmarkSet := BookmarkSet.zero }

def getBookmarksResponse.enc (x : getBookmarksResponse) : XmlNode :=
  .elem "getBookmarksResponse" [] [BookmarkSet.enc x.bookmarkSet]

def getBookmarksResponse.dec (cur : getBookmarksResponse) :
    XmlNode → Except String getBookmarksResponse
  | .elem n _ children =>
      if n = "getBookmarksResponse" then do
        let bs ← childStruct BookmarkSet.dec "bookmarkSet" cur.bookmarkSet children
        .ok { bookmarkSet := bs }
      else .error ("expected element type <getBookmarksResponse> but have <"
        ++ n ++ ">")
  | .text _ => .error "expected element"

theorem getBookmarksResponse_rt (x : getBookmarksResponse) :
    getBookmarksResponse.dec getBookmarksResponse.zero
      (getBookmarksResponse.enc x) = .ok x := by
  obtain ⟨bs⟩ := x
  simp [getBookmarksResponse.dec, getBookmarksResponse.enc,
    getBookmarksResponse.zero, childStruct, lastElem, BookmarkSet_rt,
    Bind.bind, Except.bind]

/-- Request `markAnnouncementsAsRead` (pointer child `read`). -/
structure markAnnouncementsAsRead where
  read : Option Read

def markAnnouncementsAsRead.zero : markAnnouncementsAsRead := { read := none }

def markAnnouncementsAsRead.enc (x : markAnnouncementsAsRead) : XmlNode :=
  .elem "markAnnouncementsAsRead" [] (encOpt Read.enc x.read)

def markAnnouncementsAsRead.dec (cur : markAnnouncementsAsRead) :
    XmlNode → Except String markAnnouncementsAsRead
  | .elem n _ children =>
      if n = "markAnnouncementsAsRead" then do
        let r ← childOpt Read.dec Read.zero "read" cur.read children
        .ok { read := r }
      else .error ("expected element type <markAnnouncementsAsRead> but have <"
        ++ n ++ ">")
  | .text _ => .error "expected element"

theorem markAnnouncementsAsRead_rt (x : markAnnouncementsAsRead) :
    markAnnouncementsAsRead.dec markAnnouncementsAsRead.zero
      (markAnnouncementsAsRead.enc x) = .ok x := by
  obtain ⟨r⟩ := x
  cases r <;>
    simp [markAnnouncementsAsRead.dec, markAnnouncementsAsRead.enc,
      markAnnouncementsAsRead.zero, encOpt, childOpt, lastElem, Read_rt,
      Bind.bind, Except.bind, Except.map]

/-- Response `markAnnouncementsAsReadResponse`. -/
structure markAnnouncementsAsReadResponse where
  markAnnouncementsAsReadResult : Bool

def markAnnouncementsAsReadResponse.zero : markAnnouncementsAsReadResponse :=
  { markAnnouncementsAsReadResult := false }

def markAnnouncementsAsReadResponse.enc
    (x : markAnnouncementsAsReadResponse) : XmlNode :=
  .elem "markAnnouncementsAsReadResponse" []
    [encBool "markAnnouncementsAsReadResult" x.markAnnouncementsAsReadResult]

def markAnnouncementsAsReadResponse.dec (cur : markAnnouncementsAsReadResponse) :
    XmlNode → Except String markAnnouncementsAsReadResponse
  | .elem n _ children =>
      if n = "markAnnouncementsAsReadResponse" then do
        let b ← childBool "markAnnouncementsAsReadResult"
          cur.markAnnouncementsAsReadResult children
        .ok { markAnnouncementsAsReadResult := b }
      else .error ("expected element type <markAnnouncementsAsReadResponse> but have <"
        ++ n ++ ">")
  | .text _ => .error "expected element"

theorem markAnnouncementsAsReadResponse_rt (x : markAnnouncementsAsReadResponse) :
    markAnnouncementsAsReadResponse.dec markAnnouncementsAsReadResponse.zero
      (markAnnouncementsAsReadResponse.enc x) = .ok x := by
  obtain ⟨b⟩ := x
  simp [markAnnouncementsAsReadResponse.dec, markAnnouncementsAsReadResponse.enc,
    childBool, lastElem, encBool, parseBool_boolStr, Bind.bind, Except.bind]

/-! ## Envelope round-trip -/

/-- The payload shape `σ`, with encoder `enc`, decoder `dec` and zero `z`,
round-trips through the Envelope Codec and the Generic Body Extractor:
encoding any payload value as an envelope document and running the extractor
over the resulting Body with a fresh zero destination reproduces the value. -/
def opRoundTrip {σ : Type} (enc : σ → XmlNode) (dec : σ → XmlNode → Except String σ)
    (z : σ) : Prop :=
  ∀ x : σ,
    (extractBodyElems (envelopeEncode (enc x))).map
      (fun elems => bodyUnmarshalXML dec z elems) = some (.ok x)

theorem opRoundTrip_of {σ : Type} (enc : σ → XmlNode)
    (dec : σ → XmlNode → Except String σ) (z : σ)
    (hshape : ∀ x, ∃ n a c, enc x = .elem n a c)
    (hrt : ∀ x, dec z (enc x) = .ok x) : opRoundTrip enc dec z := by
  intro x
  have hbody : bodyUnmarshalXML dec z [enc x] = dec z (enc x) := by
    obtain ⟨n, a, c, he⟩ := hshape x
    rw [he]; rfl
  have hext : extractBodyElems (envelopeEncode (enc x)) = some [enc x] := rfl
  rw [hext]
  show some (bodyUnmarshalXML dec z [enc x]) = some (.ok x)
  rw [hbody, hrt x]

/-! ## The Operation Facade

One model per facade method, as a function of the `call` outcome for that
method (the Go code is uniformly `if err := c.call(...); err != nil { return
zero, err }`).  The result records the returned value, the returned error,
and whether the method released the HTTP client's idle pooled connections
(`CloseIdleConnections`). -/

/-- What a facade method returns, together with its resource-release effect. -/
structure FacadeOut (ρ : Type) where
  result : ρ
  err : Option GoError
  closedIdleConnections : Bool

/-- `Client.LogOn` of part_000 (lines 439–450). -/
def LogOn_dodp (o : Except GoError logOnResponse) : FacadeOut Bool :=
  match o with
  | .error e => ⟨false, some (.wrapped "logOn operation: " e), false⟩
  | .ok r => ⟨r.logOnResult, none, false⟩

/-- `Client.LogOff` of part_000 (lines 463–472): on success it additionally
calls `CloseIdleConnections`. -/
def LogOff_dodp (o : Except GoError logOffResponse) : FacadeOut Bool :=
  match o with
  | .error e => ⟨false, some (.wrapped "logOff operation: " e), false⟩
  | .ok r => ⟨r.logOffResult, none, true⟩

/-- `Client.GetServiceAttributes` of part_000 (lines 485–493). -/
def GetServiceAttributes_dodp (o : Except GoError getServiceAttributesResponse) :
    FacadeOut (Option ServiceAttributes) :=
  match o with
  | .error e => ⟨none, some (.wrapped "getServiceAttributes operation: " e), false⟩
  | .ok r => ⟨some r.serviceAttributes, none, false⟩

/-- `Client.SetReadingSystemAttributes` of part_000 (lines 507–515). -/
def SetReadingSystemAttributes_dodp
    (o : Except GoError setReadingSystemAttributesResponse) : FacadeOut Bool :=
  match o with
  | .error e =>
      ⟨false, some (.wrapped "setReadingSystemAttributes operation: " e), false⟩
  | .ok r => ⟨r.setReadingSystemAttributesResult, none, false⟩

/-- `Client.GetContentList` of part_000 (lines 532–544). -/
def GetContentList_dodp (o : Except GoError getContentListResponse) :
    FacadeOut (Option ContentList) :=
  match o with
  | .error e => ⟨none, some (.wrapped "getContentList operation: " e), false⟩
  | .ok r => ⟨some r.contentList, none, false⟩

/-- `Client.GetContentMetadata` of part_000 (lines 558–566). -/
def GetContentMetadata_dodp (o : Except GoError getContentMetadataResponse) :
    FacadeOut (Option ContentMetadata) :=
  match o with
  | .error e => ⟨none, some (.wrapped "getContentMetadata operation: " e), false⟩
  | .ok r => ⟨some r.contentMetadata, none, false⟩

/-- `Client.GetContentResources` of part_000 (lines 580–588). -/
def GetContentResources_dodp (o : Except GoError getContentResourcesResponse) :
    FacadeOut (Option Resources) :=
  match o with
  | .error e => ⟨none, some (.wrapped "getContentResources operation: " e), false⟩
  | .ok r => ⟨some r.resources, none, false⟩

/-- `Client.IssueContent` of part_000 (lines 601–609). -/
def IssueContent_dodp (o : Except GoError issueContentResponse) : FacadeOut Bool :=
  match o with
  | .error e => ⟨false, some (.wrapped "issueContent operation: " e), false⟩
  | .ok r => ⟨r.issueContentResult, none, false⟩

/-- `Client.ReturnContent` of part_000 (lines 625–633). -/
def ReturnContent_dodp (o : Except GoError returnContentResponse) : FacadeOut Bool :=
  match o with
  | .error e => ⟨false, some (.wrapped "returnContent operation: " e), false⟩
  | .ok r => ⟨r.returnContentResult, none, false⟩

/-- `Client.GetQuestions` of part_000 (lines 646–654). -/
def GetQuestions_dodp (o : Except GoError getQuestionsResponse) :
    FacadeOut (Option Questions) :=
  match o with
  | .error e => ⟨none, some (.wrapped "getQuestions operation: " e), false⟩
  | .ok r => ⟨some r.questions, none, false⟩

/-- `Client.GetServiceAnnouncements` of part_000 (lines 666–674). -/
def GetServiceAnnouncements_dodp
    (o : Except GoError getServiceAnnouncementsResponse) :
    FacadeOut (Option Announcements) :=
  match o with
  | .error e =>
      ⟨none, some (.wrapped "getServiceAnnouncements operation: " e), false⟩
  | .ok r => ⟨some r.announcements, none, false⟩

/-- `Client.SetBookmarks` of part_000 (lines 689–700). -/
def SetBookmarks_dodp (o : Except GoError setBookmarksResponse) : FacadeOut Bool :=
  match o with
  | .error e => ⟨false, some (.wrapped "setBookmarks operation: " e), false⟩
  | .ok r => ⟨r.setBookmarksResult, none, false⟩

/-- `Client.GetBookmarks` of part_000 (lines 713–721). -/
def GetBookmarks_dodp (o : Except GoError getBookmarksResponse) :
    FacadeOut (Option BookmarkSet) :=
  match o with
  | .error e => ⟨none, some (.wrapped "getBookmarks operation: " e), false⟩
  | .ok r => ⟨some r.bookmarkSet, none, false⟩

/-- `Client.MarkAnnouncementsAsRead` of part_000 (lines 735–743). -/
def MarkAnnouncementsAsRead_dodp
    (o : Except GoError markAnnouncementsAsReadResponse) : FacadeOut Bool :=
  match o with
  | .error e =>
      ⟨false, some (.wrapped "markAnnouncementsAsRead operation: " e), false⟩
  | .ok r => ⟨r.markAnnouncementsAsReadResult, none, false⟩

/-- `Client.LogOn` of client.go (lines 253–264): the error propagates
unwrapped. -/
def LogOn_client (o : Except GoError logOnResponse) : FacadeOut Bool :=
  match o with
  | .error e => ⟨false, some e, false⟩
  | .ok r => ⟨r.logOnResult, none, false⟩

/-- `Client.LogOff` of client.go (lines 268–276): `CloseIdleConnections` on
success. -/
def LogOff_client (o : Except GoError logOffResponse) : FacadeOut Bool :=
  match o with
  | .error e => ⟨false, some e, false⟩
  | .ok r => ⟨r.logOffResult, none, true⟩

/-- `Client.LogOn` of part_001 (lines 243–254). -/
def LogOn_daisy (o : Except GoError logOnResponse) : FacadeOut Bool :=
  match o with
  | .error e => ⟨false, some e, false⟩
  | .ok r => ⟨r.logOnResult, none, false⟩

/-- `Client.LogOff` of part_001 (lines 258–265): no
`CloseIdleConnections` anywhere in this variant. -/
def LogOff_daisy (o : Except GoError logOffResponse) : FacadeOut Bool :=
  match o with
  | .error e => ⟨false, some e, false⟩
  | .ok r => ⟨r.logOffResult, none, false⟩

/-- `Client.GetServiceAttributes` of part_001 (lines 269–276). -/
def GetServiceAttributes_daisy (o : Except GoError getServiceAttributesResponse) :
    FacadeOut (Option ServiceAttributes) :=
  match o with
  | .error e => ⟨none, some e, false⟩
  | .ok r => ⟨some r.serviceAttributes, none, false⟩

/-- Did the call succeed? -/
def isOkE {ρ : Type} : Except GoError ρ → Bool
  | .ok _ => true
  | .error _ => false

/-! ## Concrete fixtures -/

/-- The fault body of the specification's sign-on failure scenario:
`<Fault><faultstring>Invalid credentials</faultstring></Fault>`. -/
def faultElem : XmlNode :=
  .elem "Fault" [] [.elem "faultstring" [] [.text "Invalid credentials"]]

/-- A 500 response whose body's sole element is `faultElem`. -/
def resp500 : HttpResponse :=
  { statusCode := 500, statusText := "500 Internal Server Error",
    contentEncoding := none, body := .plain (.xml [faultElem]) }

/-- A 200 response whose body's first element happens to be named `Fault`. -/
def resp200Fault : HttpResponse :=
  { statusCode := 200, statusText := "200 OK", contentEncoding := none,
    body := .plain (.xml [faultElem]) }

/-- A 200 response with an empty body (whitespace only, no element). -/
def resp200Empty : HttpResponse :=
  { statusCode := 200, statusText := "200 OK", contentEncoding := none,
    body := .plain (.xml [.text "\n"]) }

/-! ## Helper lemmas about the transport -/

theorem readBody_error_simple (resp : HttpResponse) (e : GoError)
    (h : readBody resp = .error e) : ∃ m, e = .simple m := by
  rcases resp with ⟨sc, st, ce, body⟩
  by_cases hc : ce = some "gzip" <;> cases body <;>
    simp [readBody, hc] at h <;> exact ⟨_, h.symm⟩

theorem decodeOutcome_error_simple {α : Type} (r : Except String α) (e : GoError)
    (h : decodeOutcome r = .error e) : ∃ m, e = .simple m := by
  cases r <;> simp [decodeOutcome] at h
  exact ⟨_, h.symm⟩

/-! ## The claims -/

/-- Claim C1, as amended.  In the dodp invokers (part_000, client.go) a
non-200 response is routed through Fault decoding and the call always
returns an error — either the decoded Fault (wrapped as `fault: ...` by
part_000, returned verbatim by client.go) or the decode error; in the
daisyonline invoker (part_001) a non-200 response instead returns an error
carrying the HTTP status text without Fault decoding.  In every variant a
non-200 status never yields success. -/
theorem claim_C1_nonsuccess_error :
    (∀ (α : Type) (resp : HttpResponse) (dec : α → XmlNode → Except String α)
        (dst : α), resp.statusCode ≠ 200 →
      (∃ fs, call_dodp resp dec dst = .error (.wrapped "fault: " (.fault fs))) ∨
      (∃ m, call_dodp resp dec dst = .error (.simple m)))
    ∧ (∀ (α : Type) (resp : HttpResponse) (dec : α → XmlNode → Except String α)
        (dst : α), resp.statusCode ≠ 200 →
      (∃ fs, call_client resp dec dst = .error (.fault fs)) ∨
      (∃ m, call_client resp dec dst = .error (.simple m)))
    ∧ (∀ (α : Type) (resp : HttpResponse) (dec : α → XmlNode → Except String α)
        (dst : α), resp.statusCode ≠ 200 →
      call_daisy resp dec dst = .error (.simple resp.statusText)) := by
  refine ⟨?_, ?_, ?_⟩
  · intro α resp dec dst h
    cases hr : readBody resp with
    | error e =>
        obtain ⟨m, rfl⟩ := readBody_error_simple resp e hr
        right; exact ⟨m, by simp [call_dodp, hr]⟩
    | ok raw =>
        cases raw with
        | malformed => right; exact ⟨"XML syntax error", by simp [call_dodp, hr]⟩
        | xml elems =>
            cases hb : bodyUnmarshalXML Fault.dec Fault.zero elems with
            | error m => right; exact ⟨m, by simp [call_dodp, hr, h, hb]⟩
            | ok f => left; exact ⟨f.faultstring, by simp [call_dodp, hr, h, hb]⟩
  · intro α resp dec dst h
    cases hr : readBody resp with
    | error e =>
        obtain ⟨m, rfl⟩ := readBody_error_simple resp e hr
        right; exact ⟨m, by simp [call_client, hr]⟩
    | ok raw =>
        cases raw with
        | malformed => right; exact ⟨"XML syntax error", by simp [call_client, hr]⟩
        | xml elems =>
            cases hb : unmarshalFirst Fault.dec Fault.zero elems with
            | error m => right; exact ⟨m, by simp [call_client, hr, h, hb]⟩
            | ok f => left; exact ⟨f.faultstring, by simp [call_client, hr, h, hb]⟩
  · intro α resp dec dst h
    simp [call_daisy, h]

/-- Witness for C1 at the concrete 500/Fault scenario response. -/
theorem claim_C1_witness :
    resp500.statusCode ≠ 200 ∧
    call_daisy resp500 logOnResponse.dec logOnResponse.zero =
      .error (.simple resp500.statusText) :=
  ⟨by decide, claim_C1_nonsuccess_error.2.2 logOnResponse resp500
    logOnResponse.dec logOnResponse.zero (by decide)⟩

/-- Counterexample to C1 as stated: the part_001 invoker, at a concrete 500
response whose body is a decodable Fault carrying `Invalid credentials`,
returns the HTTP status text — not the decoded Fault's message and not a
Fault-classified error — even though Fault decoding of that body succeeds. -/
theorem claim_C1_counterexample :
    call_daisy resp500 logOnResponse.dec logOnResponse.zero =
      .error (.simple "500 Internal Server Error") ∧
    (GoError.simple "500 Internal Server Error").isFault = false ∧
    (GoError.simple "500 Internal Server Error").message ≠ "Invalid credentials" ∧
    bodyUnmarshalXML Fault.dec Fault.zero [faultElem] =
      .ok { faultstring := "Invalid credentials" } :=
  ⟨rfl, rfl, by decide, rfl⟩

/-- Claim C2.  On an HTTP 200 response no invoker ever classifies the
outcome as a Fault — any error it returns is a plain decode error, never a
Fault value, even when the body's first element is named `Fault` — and the
body is decoded into the caller-supplied destination: the call's outcome on
a well-formed body is exactly the destination decode's outcome. -/
theorem claim_C2_success_never_fault :
    (∀ (α : Type) (resp : HttpResponse) (dec : α → XmlNode → Except String α)
        (dst : α) (e : GoError), resp.statusCode = 200 →
      call_dodp resp dec dst = .error e → e.isFault = false)
    ∧ (∀ (α : Type) (resp : HttpResponse) (dec : α → XmlNode → Except String α)
        (dst : α) (elems : List XmlNode), resp.statusCode = 200 →
      readBody resp = .ok (.xml elems) →
      call_dodp resp dec dst = decodeOutcome (bodyUnmarshalXML dec dst elems))
    ∧ (∀ (α : Type) (resp : HttpResponse) (dec : α → XmlNode → Except String α)
        (dst : α) (e : GoError), resp.statusCode = 200 →
      call_client resp dec dst = .error e → e.isFault = false)
    ∧ (∀ (α : Type) (resp : HttpResponse) (dec : α → XmlNode → Except String α)
        (dst : α) (elems : List XmlNode), resp.statusCode = 200 →
      readBody resp = .ok (.xml elems) →
      call_client resp dec dst = decodeOutcome (unmarshalFirst dec dst elems))
    ∧ (∀ (α : Type) (resp : HttpResponse) (dec : α → XmlNode → Except String α)
        (dst : α) (e : GoError), resp.statusCode = 200 →
      call_daisy resp dec dst = .error e → e.isFault = false)
    ∧ (∀ (α : Type) (resp : HttpResponse) (dec : α → XmlNode → Except String α)
        (dst : α) (elems : List XmlNode), resp.statusCode = 200 →
      readBodyNoGzip resp = .xml elems →
      call_daisy resp dec dst = decodeOutcome (unmarshalFirst dec dst elems)) := by
  refine ⟨?_, ?_, ?_, ?_, ?_, ?_⟩
  · intro α resp dec dst e h200 hcall
    cases hr : readBody resp with
    | error e' =>
        obtain ⟨m, rfl⟩ := readBody_error_simple resp e' hr
        simp [call_dodp, hr] at hcall
        simp [← hcall, GoError.isFault]
    | ok raw =>
        cases raw with
        | malformed =>
            simp [call_dodp, hr] at hcall
            simp [← hcall, GoError.isFault]
        | xml elems =>
            simp [call_dodp, hr, h200] at hcall
            obtain ⟨m, rfl⟩ :=
              decodeOutcome_error_simple (bodyUnmarshalXML dec dst elems) e hcall
            simp [GoError.isFault]
  · intro α resp dec dst elems h200 hr
    simp [call_dodp, hr, h200]
  · intro α resp dec dst e h200 hcall
    cases hr : readBody resp with
    | error e' =>
        obtain ⟨m, rfl⟩ := readBody_error_simple resp e' hr
        simp [call_client, hr] at hcall
        simp [← hcall, GoError.isFault]
    | ok raw =>
        cases raw with
        | malformed =>
            simp [call_client, hr] at hcall
            simp [← hcall, GoError.isFault]
        | xml elems =>
            simp [call_client, hr, h200] at hcall
            obtain ⟨m, rfl⟩ :=
              decodeOutcome_error_simple (unmarshalFirst dec dst elems) e hcall
            simp [GoError.isFault]
  · intro α resp dec dst elems h200 hr
    simp [call_client, hr, h200]
  · intro α resp dec dst e h200 hcall
    simp [call_daisy, h200] at hcall
    cases hrb : readBodyNoGzip resp with
    | malformed =>
        simp [hrb] at hcall
        simp [← hcall, GoError.isFault]
    | xml elems =>
        simp [hrb] at hcall
        obtain ⟨m, rfl⟩ :=
          decodeOutcome_error_simple (unmarshalFirst dec dst elems) e hcall
        simp [GoError.isFault]
  · intro α resp dec dst elems h200 hrb
    simp [call_daisy, h200, hrb]

/-- Witness for C2 at a concrete 200 response whose body's first element is
named `Fault`: the part_000 invoker yields a plain decode error (the name
mismatch against the destination's schema), never a Fault classification. -/
theorem claim_C2_witness :
    resp200Fault.statusCode = 200 ∧
    call_dodp resp200Fault logOnResponse.dec logOnResponse.zero =
      .error (.simple "expected element type <logOnResponse> but have <Fault>") ∧
    (GoError.simple
      "expected element type <logOnResponse> but have <Fault>").isFault = false :=
  ⟨rfl, rfl, claim_C2_success_never_fault.1 logOnResponse resp200Fault
    logOnResponse.dec logOnResponse.zero
    (.simple "expected element type <logOnResponse> but have <Fault>") rfl rfl⟩

/-- Claim C3.  The Generic Body Extractor decodes exactly the first
start-of-element token's subtree into the destination, for any destination
schema: leading non-element tokens are skipped and the arbitrary trailing
siblings are discarded without influencing the outcome. -/
theorem claim_C3_first_element_wins :
    ∀ (α : Type) (dec : α → XmlNode → Except String α) (dst : α)
      (pre : List XmlNode) (e : XmlNode) (rest : List XmlNode),
      (∀ t ∈ pre, t.isElem = false) → e.isElem = true →
      bodyUnmarshalXML dec dst (pre ++ e :: rest) = dec dst e := by
  intro α dec dst pre e rest hpre he
  induction pre with
  | nil =>
      cases e with
      | elem n a c => rfl
      | text s => simp [XmlNode.isElem] at he
  | cons t tl ih =>
      have ht : t.isElem = false := hpre t (List.mem_cons_self t tl)
      cases t with
      | elem n a c => simp [XmlNode.isElem] at ht
      | text s =>
          simp only [List.cons_append, bodyUnmarshalXML]
          exact ih (fun u hu => hpre u (List.mem_cons_of_mem _ hu))

/-- Witness for C3 on a multi-sibling fixture: character data, then a
well-formed `logOnResponse`, then two trailing siblings (one of them a
Fault-shaped element); the extractor returns exactly the first element's
decoded value. -/
theorem claim_C3_witness :
    (∀ t ∈ [XmlNode.text "\n"], t.isElem = false) ∧
    (logOnResponse.enc { logOnResult := true }).isElem = true ∧
    bodyUnmarshalXML logOnResponse.dec logOnResponse.zero
      ([XmlNode.text "\n"] ++ logOnResponse.enc { logOnResult := true } ::
        [XmlNode.elem "diagnostics" [] [], faultElem]) =
      logOnResponse.dec logOnResponse.zero
        (logOnResponse.enc { logOnResult := true }) ∧
    logOnResponse.dec logOnResponse.zero
      (logOnResponse.enc { logOnResult := true }) =
      .ok { logOnResult := true } :=
  ⟨by simp [XmlNode.isElem], rfl,
   claim_C3_first_element_wins logOnResponse logOnResponse.dec
     logOnResponse.zero [XmlNode.text "\n"]
     (logOnResponse.enc { logOnResult := true })
     [XmlNode.elem "diagnostics" [] [], faultElem]
     (by simp [XmlNode.isElem]) rfl,
   by rfl⟩

/-- Claim C4.  Every defined operation request/response payload shape
round-trips: encoding the payload through the Envelope Codec (envelope +
body wrapper, preceded by the XML declaration) and decoding the produced
document with the Generic Body Extractor into a fresh zero destination of
the same shape reproduces the payload value. -/
theorem claim_C4_envelope_roundtrip :
    opRoundTrip logOn.enc logOn.dec logOn.zero ∧
    opRoundTrip logOnResponse.enc logOnResponse.dec logOnResponse.zero ∧
    opRoundTrip logOff.enc logOff.dec logOff.zero ∧
    opRoundTrip logOffResponse.enc logOffResponse.dec logOffResponse.zero ∧
    opRoundTrip getServiceAttributes.enc getServiceAttributes.dec
      getServiceAttributes.zero ∧
    opRoundTrip getServiceAttributesResponse.enc getServiceAttributesResponse.dec
      getServiceAttributesResponse.zero ∧
    opRoundTrip setReadingSystemAttributes.enc setReadingSystemAttributes.dec
      setReadingSystemAttributes.zero ∧
    opRoundTrip setReadingSystemAttributesResponse.enc
      setReadingSystemAttributesResponse.dec
      setReadingSystemAttributesResponse.zero ∧
    opRoundTrip getContentList.enc getContentList.dec getContentList.zero ∧
    opRoundTrip getContentListResponse.enc getContentListResponse.dec
      getContentListResponse.zero ∧
    opRoundTrip getContentMetadata.enc getContentMetadata.dec
      getContentMetadata.zero ∧
    opRoundTrip getContentMetadataResponse.enc getContentMetadataResponse.dec
      getContentMetadataResponse.zero ∧
    opRoundTrip getContentResources.enc getContentResources.dec
      getContentResources.zero ∧
    opRoundTrip getContentResourcesResponse.enc getContentResourcesResponse.dec
      getContentResourcesResponse.zero ∧
    opRoundTrip issueContent.enc issueContent.dec issueContent.zero ∧
    opRoundTrip issueContentResponse.enc issueContentResponse.dec
      issueContentResponse.zero ∧
    opRoundTrip returnContent.enc returnContent.dec returnContent.zero ∧
    opRoundTrip returnContentResponse.enc returnContentResponse.dec
      returnContentResponse.zero ∧
    opRoundTrip getQuestions.enc getQuestions.dec getQuestions.zero ∧
    opRoundTrip getQuestionsResponse.enc getQuestionsResponse.dec
      getQuestionsResponse.zero ∧
    opRoundTrip getServiceAnnouncements.enc getServiceAnnouncements.dec
      getServiceAnnouncements.zero ∧
    opRoundTrip getServiceAnnouncementsResponse.enc
      getServiceAnnouncementsResponse.dec getServiceAnnouncementsResponse.zero ∧
    opRoundTrip setBookmarks.enc setBookmarks.dec setBookmarks.zero ∧
    opRoundTrip setBookmarksResponse.enc setBookmarksResponse.dec
      setBookmarksResponse.zero ∧
    opRoundTrip getBookmarks.enc getBookmarks.dec getBookmarks.zero ∧
    opRoundTrip getBookmarksResponse.enc getBookmarksResponse.dec
      getBookmarksResponse.zero ∧
    opRoundTrip markAnnouncementsAsRead.enc markAnnouncementsAsRead.dec
      markAnnouncementsAsRead.zero ∧
    opRoundTrip markAnnouncementsAsReadResponse.enc
      markAnnouncementsAsReadResponse.dec markAnnouncementsAsReadResponse.zero :=
  ⟨opRoundTrip_of _ _ _ (fun _ => ⟨_, _, _, rfl⟩) logOn_rt,
   opRoundTrip_of _ _ _ (fun _ => ⟨_, _, _, rfl⟩) logOnResponse_rt,
   opRoundTrip_of _ _ _ (fun _ => ⟨_, _, _, rfl⟩) logOff_rt,
   opRoundTrip_of _ _ _ (fun _ => ⟨_, _, _, rfl⟩) logOffResponse_rt,
   opRoundTrip_of _ _ _ (fun _ => ⟨_, _, _, rfl⟩) getServiceAttributes_rt,
   opRoundTrip_of _ _ _ (fun _ => ⟨_, _, _, rfl⟩) getServiceAttributesResponse_rt,
   opRoundTrip_of _ _ _ (fun _ => ⟨_, _, _, rfl⟩) setReadingSystemAttributes_rt,
   opRoundTrip_of _ _ _ (fun _ => ⟨_, _, _, rfl⟩)
     setReadingSystemAttributesResponse_rt,
   opRoundTrip_of _ _ _ (fun _ => ⟨_, _, _, rfl⟩) getContentList_rt,
   opRoundTrip_of _ _ _ (fun _ => ⟨_, _, _, rfl⟩) getContentListResponse_rt,
   opRoundTrip_of _ _ _ (fun _ => ⟨_, _, _, rfl⟩) getContentMetadata_rt,
   opRoundTrip_of _ _ _ (fun _ => ⟨_, _, _, rfl⟩) getContentMetadataResponse_rt,
   opRoundTrip_of _ _ _ (fun _ => ⟨_, _, _, rfl⟩) getContentResources_rt,
   opRoundTrip_of _ _ _ (fun _ => ⟨_, _, _, rfl⟩) getContentResourcesResponse_rt,
   opRoundTrip_of _ _ _ (fun _ => ⟨_, _, _, rfl⟩) issueContent_rt,
   opRoundTrip_of _ _ _ (fun _ => ⟨_, _, _, rfl⟩) issueContentResponse_rt,
   opRoundTrip_of _ _ _ (fun _ => ⟨_, _, _, rfl⟩) returnContent_rt,
   opRoundTrip_of _ _ _ (fun _ => ⟨_, _, _, rfl⟩) returnContentResponse_rt,
   opRoundTrip_of _ _ _ (fun _ => ⟨_, _, _, rfl⟩) getQuestions_rt,
   opRoundTrip_of _ _ _ (fun _ => ⟨_, _, _, rfl⟩) getQuestionsResponse_rt,
   opRoundTrip_of _ _ _ (fun _ => ⟨_, _, _, rfl⟩) getServiceAnnouncements_rt,
   opRoundTrip_of _ _ _ (fun _ => ⟨_, _, _, rfl⟩)
     getServiceAnnouncementsResponse_rt,
   opRoundTrip_of _ _ _ (fun _ => ⟨_, _, _, rfl⟩) setBookmarks_rt,
   opRoundTrip_of _ _ _ (fun _ => ⟨_, _, _, rfl⟩) setBookmarksResponse_rt,
   opRoundTrip_of _ _ _ (fun _ => ⟨_, _, _, rfl⟩) getBookmarks_rt,
   opRoundTrip_of _ _ _ (fun _ => ⟨_, _, _, rfl⟩) getBookmarksResponse_rt,
   opRoundTrip_of _ _ _ (fun _ => ⟨_, _, _, rfl⟩) markAnnouncementsAsRead_rt,
   opRoundTrip_of _ _ _ (fun _ => ⟨_, _, _, rfl⟩)
     markAnnouncementsAsReadResponse_rt⟩

/-- Claim C5, as amended.  Invoking the sign-on operation against a server
responding 500 with body `<Fault><faultstring>Invalid
credentials</faultstring></Fault>` yields result `false` and a non-nil error
in both dodp variants; the error's message is exactly `Invalid credentials`
in the client.go variant, while the part_000 variant wraps it as
`logOn operation: fault: Invalid credentials`. -/
theorem claim_C5_logon_fault_scenario :
    (LogOn_dodp (call_dodp resp500 logOnResponse.dec logOnResponse.zero)).result
      = false ∧
    ((LogOn_dodp (call_dodp resp500 logOnResponse.dec
        logOnResponse.zero)).err).map GoError.message =
      some "logOn operation: fault: Invalid credentials" ∧
    (LogOn_client (call_client resp500 logOnResponse.dec
        logOnResponse.zero)).result = false ∧
    ((LogOn_client (call_client resp500 logOnResponse.dec
        logOnResponse.zero)).err).map GoError.message =
      some "Invalid credentials" :=
  ⟨rfl, rfl, rfl, rfl⟩

/-- Counterexample to C5 as stated: in the part_000 variant, the sign-on
call at exactly that scenario returns a non-nil error whose message is
`logOn operation: fault: Invalid credentials`, not exactly
`Invalid credentials`. -/
theorem claim_C5_counterexample :
    ((LogOn_dodp (call_dodp resp500 logOnResponse.dec
        logOnResponse.zero)).err).map GoError.message =
      some "logOn operation: fault: Invalid credentials" ∧
    "logOn operation: fault: Invalid credentials" ≠ "Invalid credentials" :=
  ⟨rfl, by decide⟩

/-- On a token stream with no start-of-element token the extractor returns
the destination untouched. -/
theorem bodyUnmarshalXML_all_text {α : Type} (dec : α → XmlNode → Except String α)
    (dst : α) : ∀ elems : List XmlNode,
    (∀ t ∈ elems, t.isElem = false) → bodyUnmarshalXML dec dst elems = .ok dst := by
  intro elems h
  induction elems with
  | nil => rfl
  | cons t tl ih =>
      have ht : t.isElem = false := h t (List.mem_cons_self t tl)
      cases t with
      | elem n a c => simp [XmlNode.isElem] at ht
      | text s =>
          simp only [bodyUnmarshalXML]
          exact ih (fun u hu => h u (List.mem_cons_of_mem _ hu))

/-- Claim C6.  Running the Generic Body Extractor over an empty body — a
token stream with no start-of-element token — terminates successfully and
leaves the destination value unmodified, for every destination; in
particular a part_000 call on a success status with such a body returns the
destination unchanged with no error. -/
theorem claim_C6_empty_body :
    (∀ (α : Type) (dec : α → XmlNode → Except String α) (dst : α)
        (elems : List XmlNode), (∀ t ∈ elems, t.isElem = false) →
      bodyUnmarshalXML dec dst elems = .ok dst)
    ∧ (∀ (α : Type) (resp : HttpResponse) (dec : α → XmlNode → Except String α)
        (dst : α) (elems : List XmlNode), resp.statusCode = 200 →
      readBody resp = .ok (.xml elems) → (∀ t ∈ elems, t.isElem = false) →
      call_dodp resp dec dst = .ok dst) := by
  refine ⟨fun α dec dst elems h => bodyUnmarshalXML_all_text dec dst elems h, ?_⟩
  intro α resp dec dst elems h200 hr hel
  simp [call_dodp, hr, h200, bodyUnmarshalXML_all_text dec dst elems hel,
    decodeOutcome]

/-- Witness for C6 at a concrete 200 response whose body is whitespace
only: the call succeeds and the destination (the zero `logOnResponse`) is
returned unmodified. -/
theorem claim_C6_witness :
    resp200Empty.statusCode = 200 ∧
    readBody resp200Empty = .ok (.xml [XmlNode.text "\n"]) ∧
    (∀ t ∈ [XmlNode.text "\n"], t.isElem = false) ∧
    call_dodp resp200Empty logOnResponse.dec logOnResponse.zero =
      .ok logOnResponse.zero :=
  ⟨rfl, rfl, by simp [XmlNode.isElem],
   claim_C6_empty_body.2 logOnResponse resp200Empty logOnResponse.dec
     logOnResponse.zero [XmlNode.text "\n"] rfl rfl (by simp [XmlNode.isElem])⟩

/-- Claim C7.  In both gzip-aware invokers (part_000, client.go): a response
declaring `Content-Encoding: gzip` whose body is a valid gzip stream is
decompressed before envelope parsing and extraction — the call behaves
exactly as if the decompressed bytes had arrived uncompressed — and a
corrupted or truncated gzip stream makes the call return a plain decode
error, never success. -/
theorem claim_C7_gzip :
    (∀ (α : Type) (st : Nat) (txt : String) (raw : RawBody)
        (dec : α → XmlNode → Except String α) (dst : α),
      call_dodp ⟨st, txt, some "gzip", .gzipped raw⟩ dec dst =
        call_dodp ⟨st, txt, none, .plain raw⟩ dec dst)
    ∧ (∀ (α : Type) (st : Nat) (txt : String)
        (dec : α → XmlNode → Except String α) (dst : α),
      call_dodp ⟨st, txt, some "gzip", .gzipCorruptHeader⟩ dec dst =
        .error (.simple "gzip: invalid header"))
    ∧ (∀ (α : Type) (st : Nat) (txt : String)
        (dec : α → XmlNode → Except String α) (dst : α),
      call_dodp ⟨st, txt, some "gzip", .gzipTruncated⟩ dec dst =
        .error (.simple "XML syntax error"))
    ∧ (∀ (α : Type) (st : Nat) (txt : String) (raw : RawBody)
        (dec : α → XmlNode → Except String α) (dst : α),
      call_client ⟨st, txt, some "gzip", .gzipped raw⟩ dec dst =
        call_client ⟨st, txt, none, .plain raw⟩ dec dst)
    ∧ (∀ (α : Type) (st : Nat) (txt : String)
        (dec : α → XmlNode → Except String α) (dst : α),
      call_client ⟨st, txt, some "gzip", .gzipCorruptHeader⟩ dec dst =
        .error (.simple "gzip: invalid header"))
    ∧ (∀ (α : Type) (st : Nat) (txt : String)
        (dec : α → XmlNode → Except String α) (dst : α),
      call_client ⟨st, txt, some "gzip", .gzipTruncated⟩ dec dst =
        .error (.simple "XML syntax error")) := by
  refine ⟨?_, ?_, ?_, ?_, ?_, ?_⟩
  · intro α st txt raw dec dst
    simp [call_dodp, readBody]
  · intro α st txt dec dst
    simp [call_dodp, readBody]
  · intro α st txt dec dst
    simp [call_dodp, readBody]
  · intro α st txt raw dec dst
    simp [call_client, readBody]
  · intro α st txt dec dst
    simp [call_client, readBody]
  · intro α st txt dec dst
    simp [call_client, readBody]

/-- Claim C8, as amended.  Every request built by an invoker is a single
HTTP POST to the client's configured endpoint.  The dodp invokers
(part_000, client.go) attach exactly the four fixed headers — content type
`text/xml; charset=utf-8`, `Accept: text/xml`, `Accept-Encoding: gzip`, and
a `SOAPAction` header of `/` concatenated with the operation name; the
daisyonline invoker (part_001) attaches only the other three and no
`Accept-Encoding`. -/
theorem claim_C8_request_headers :
    (∀ url action : String, buildRequest_dodp url action =
      { method := "POST", url := url,
        headers := [("Content-Type", "text/xml; charset=utf-8"),
                    ("Accept", "text/xml"), ("Accept-Encoding", "gzip"),
                    ("SOAPAction", "/" ++ action)] })
    ∧ (∀ url action : String, buildRequest_client url action =
      { method := "POST", url := url,
        headers := [("Content-Type", "text/xml; charset=utf-8"),
                    ("Accept", "text/xml"), ("Accept-Encoding", "gzip"),
                    ("SOAPAction", "/" ++ action)] })
    ∧ (∀ url action : String, buildRequest_daisy url action =
      { method := "POST", url := url,
        headers := [("Content-Type", "text/xml; charset=utf-8"),
                    ("Accept", "text/xml"),
                    ("SOAPAction", "/" ++ action)] }) :=
  ⟨fun _ _ => rfl, fun _ _ => rfl, fun _ _ => rfl⟩

/-- Counterexample to C8 as stated: the part_001 invoker's request for a
concrete endpoint and operation carries no `Accept-Encoding: gzip` header
(while the part_000 request does). -/
theorem claim_C8_counterexample :
    ¬ (("Accept-Encoding", "gzip") ∈
        (buildRequest_daisy "http://example.com/service" "logOn").headers) ∧
    ("Accept-Encoding", "gzip") ∈
      (buildRequest_dodp "http://example.com/service" "logOn").headers :=
  ⟨by decide, by decide⟩

/-- Claim C9, as amended.  In the dodp variants (part_000, client.go) the
sign-off facade releases the client's idle pooled HTTP connections exactly
when the sign-off exchange succeeded (not on the error path); the
daisyonline variant's sign-off performs no such release; and no other
facade method of any variant ever performs it. -/
theorem claim_C9_logoff_releases_connections :
    (∀ o, (LogOff_dodp o).closedIdleConnections = isOkE o)
    ∧ (∀ o, (LogOff_client o).closedIdleConnections = isOkE o)
    ∧ (∀ o, (LogOff_daisy o).closedIdleConnections = false)
    ∧ (∀ o, (LogOn_dodp o).closedIdleConnections = false)
    ∧ (∀ o, (SetReadingSystemAttributes_dodp o).closedIdleConnections = false)
    ∧ (∀ o, (IssueContent_dodp o).closedIdleConnections = false)
    ∧ (∀ o, (ReturnContent_dodp o).closedIdleConnections = false)
    ∧ (∀ o, (SetBookmarks_dodp o).closedIdleConnections = false)
    ∧ (∀ o, (MarkAnnouncementsAsRead_dodp o).closedIdleConnections = false)
    ∧ (∀ o, (GetServiceAttributes_dodp o).closedIdleConnections = false)
    ∧ (∀ o, (GetContentList_dodp o).closedIdleConnections = false)
    ∧ (∀ o, (GetContentMetadata_dodp o).closedIdleConnections = false)
    ∧ (∀ o, (GetContentResources_dodp o).closedIdleConnections = false)
    ∧ (∀ o, (GetQuestions_dodp o).closedIdleConnections = false)
    ∧ (∀ o, (GetServiceAnnouncements_dodp o).closedIdleConnections = false)
    ∧ (∀ o, (GetBookmarks_dodp o).closedIdleConnections = false)
    ∧ (∀ o, (LogOn_client o).closedIdleConnections = false)
    ∧ (∀ o, (LogOn_daisy o).closedIdleConnections = false)
    ∧ (∀ o, (GetServiceAttributes_daisy o).closedIdleConnections = false) :=
  ⟨fun o => by cases o <;> rfl, fun o => by cases o <;> rfl,
   fun o => by cases o <;> rfl, fun o => by cases o <;> rfl,
   fun o => by cases o <;> rfl, fun o => by cases o <;> rfl,
   fun o => by cases o <;> rfl, fun o => by cases o <;> rfl,
   fun o => by cases o <;> rfl, fun o => by cases o <;> rfl,
   fun o => by cases o <;> rfl, fun o => by cases o <;> rfl,
   fun o => by cases o <;> rfl, fun o => by cases o <;> rfl,
   fun o => by cases o <;> rfl, fun o => by cases o <;> rfl,
   fun o => by cases o <;> rfl, fun o => by cases o <;> rfl,
   fun o => by cases o <;> rfl⟩

/-- Counterexample to C9 as stated: after a successful sign-off exchange the
part_001 variant's LogOff does not release idle pooled connections (the
part_000 variant's does). -/
theorem claim_C9_counterexample :
    (LogOff_daisy (.ok { logOffResult := true })).closedIdleConnections = false ∧
    (LogOff_dodp (.ok { logOffResult := true })).closedIdleConnections = true :=
  ⟨rfl, rfl⟩

/-- Claim C10.  For every Operation Facade method, whenever the method
returns a non-nil error the accompanying result is the zero value of its
type: `false` for the boolean-returning methods and `nil` for the
pointer-returning ones — across all three variants. -/
theorem claim_C10_zero_result_on_error :
    (∀ o, (LogOn_dodp o).err.isSome = true → (LogOn_dodp o).result = false)
    ∧ (∀ o, (LogOff_dodp o).err.isSome = true → (LogOff_dodp o).result = false)
    ∧ (∀ o, (SetReadingSystemAttributes_dodp o).err.isSome = true →
        (SetReadingSystemAttributes_dodp o).result = false)
    ∧ (∀ o, (IssueContent_dodp o).err.isSome = true →
        (IssueContent_dodp o).result = false)
    ∧ (∀ o, (ReturnContent_dodp o).err.isSome = true →
        (ReturnContent_dodp o).result = false)
    ∧ (∀ o, (SetBookmarks_dodp o).err.isSome = true →
        (SetBookmarks_dodp o).result = false)
    ∧ (∀ o, (MarkAnnouncementsAsRead_dodp o).err.isSome = true →
        (MarkAnnouncementsAsRead_dodp o).result = false)
    ∧ (∀ o, (GetServiceAttributes_dodp o).err.isSome = true →
        (GetServiceAttributes_dodp o).result = none)
    ∧ (∀ o, (GetContentList_dodp o).err.isSome = true →
        (GetContentList_dodp o).result = none)
    ∧ (∀ o, (GetContentMetadata_dodp o).err.isSome = true →
        (GetContentMetadata_dodp o).result = none)
    ∧ (∀ o, (GetContentResources_dodp o).err.isSome = true →
        (GetContentResources_dodp o).result = none)
    ∧ (∀ o, (GetQuestions_dodp o).err.isSome = true →
        (GetQuestions_dodp o).result = none)
    ∧ (∀ o, (GetServiceAnnouncements_dodp o).err.isSome = true →
        (GetServiceAnnouncements_dodp o).result = none)
    ∧ (∀ o, (GetBookmarks_dodp o).err.isSome = true →
        (GetBookmarks_dodp o).result = none)
    ∧ (∀ o, (LogOn_client o).err.isSome = true → (LogOn_client o).result = false)
    ∧ (∀ o, (LogOff_client o).err.isSome = true → (LogOff_client o).result = false)
    ∧ (∀ o, (LogOn_daisy o).err.isSome = true → (LogOn_daisy o).result = false)
    ∧ (∀ o, (LogOff_daisy o).err.isSome = true → (LogOff_daisy o).result = false)
    ∧ (∀ o, (GetServiceAttributes_daisy o).err.isSome = true →
        (GetServiceAttributes_daisy o).result = none) := by
  refine ⟨?_, ?_, ?_, ?_, ?_, ?_, ?_, ?_, ?_, ?_, ?_, ?_, ?_, ?_, ?_, ?_, ?_,
    ?_, ?_⟩ <;>
  · intro o h
    cases o with
    | error e => rfl
    | ok r => simp [LogOn_dodp, LogOff_dodp, SetReadingSystemAttributes_dodp,
        IssueContent_dodp, ReturnContent_dodp, SetBookmarks_dodp,
        MarkAnnouncementsAsRead_dodp, GetServiceAttributes_dodp,
        GetContentList_dodp, GetContentMetadata_dodp, GetContentResources_dodp,
        GetQuestions_dodp, GetServiceAnnouncements_dodp, GetBookmarks_dodp,
        LogOn_client, LogOff_client, LogOn_daisy, LogOff_daisy,
        GetServiceAttributes_daisy] at h

/-- Witness for C10: a facade outcome carrying a concrete transport error
yields a non-nil error and the zero (false) result. -/
theorem claim_C10_witness :
    (LogOn_dodp (.error (.simple "connection refused"))).err.isSome = true ∧
    (LogOn_dodp (.error (.simple "connection refused"))).result = false :=
  ⟨rfl, claim_C10_zero_result_on_error.1 (.error (.simple "connection refused")) rfl⟩

end Dodp
